import Mathlib

/-!
Verification development for the Real-estate-deal-analyzer repository.

The TypeScript sources are shallowly embedded over the rational numbers:
every JavaScript number is modelled as a value of `ℚ`, with the usual
convention that division by zero yields `0` (in JavaScript it yields
`NaN` or an infinity; every place where this matters is noted next to
the definition concerned).  Counts (unit count, amortization years) are
modelled as `ℕ`, since the code only ever multiplies and compares them.
-/

namespace RealEstate

/-- Embeds the `RealEstateDeal` / `RealestateAnalysisInput` interface
(src/RealEstateDealBuilder.ts and src/RealEstateDealAnalyser.ts). -/
structure RealEstateDeal where
  salePrice : ℚ
  downpaymentPercentage : ℚ
  annualMortgageInterestRate : ℚ
  mortgageAmortization : ℕ
  propertyTaxRate : ℚ
  monthlyHoaDues : ℚ
  vacancyRate : ℚ
  monthlyRent : ℚ
  landlordPaidUtilities : Bool
  needsPropertyManagement : Bool
  unitCount : ℕ
  newConstruction : Bool
  closingEquity : Option ℚ := none
deriving DecidableEq

/-! FINANCIAL_CONSTANTS from src/RealEstateDealAnalyser.ts (nested
objects are flattened into individual constants). -/

def CLOSING_COST_RATE : ℚ := 0.032
def PMI_RATE : ℚ := 0.0098
def INVESTMENT_YEAR_TIME_HORIZON : ℕ := 5
def APPRECIATION_RATE_SFH : ℚ := 0.04
def APPRECIATION_RATE_RENT : ℚ := 0.025
def MAINTENANCE_RATE_NEW_CONSTRUCTION : ℚ := 0.0015
def MAINTENANCE_RATE_EXISTING_CONSTRUCTION : ℚ := 0.0054
def MANAGEMENT_RATE_SINGLE_FAMILY : ℚ := 0.1
def MANAGEMENT_RATE_MULTI_FAMILY : ℚ := 0.08
def UNIT_UTILITY_COST : ℚ := 355
def CAPEX_RATE : ℚ := 0.01
def BASE_INSURANCE_RATE : ℚ := 0.0044
def CONDO_INSURANCE_RATE : ℚ := 450
def MINIMUM_MONTHLY_CASHFLOW_PER_DOOR : ℚ := 100
def MINIMUM_ROI : ℚ := 0.25
def MINIMUM_COC_ROI : ℚ := 0.05

/-! MortgageCalculationService (src/unnamed/part_000). -/

/-- `getDownPayment` from MortgageCalculationService. -/
def getDownPayment (deal : RealEstateDeal) (purchasePrice : ℚ) : ℚ :=
  purchasePrice * (deal.downpaymentPercentage / 100)

/-- `getLoanAmount` from MortgageCalculationService; `closingEquity || 0`
is modelled by `Option.getD` (in JavaScript `0 || 0 = 0` as well, so the
falsy case agrees). -/
def getLoanAmount (deal : RealEstateDeal) (purchasePrice : ℚ) : ℚ :=
  purchasePrice - getDownPayment deal purchasePrice - deal.closingEquity.getD 0

/-- The PMI summand of `getMonthlyMortgagePayment` (a `const` local in the
source, named here so that theorems can speak about it). -/
def monthlyPMI (deal : RealEstateDeal) (purchasePrice : ℚ) : ℚ :=
  if deal.downpaymentPercentage ≥ 20 then 0 else purchasePrice * PMI_RATE / 12

/-- `getMonthlyMortgagePayment` from MortgageCalculationService.  Note
that the source has no special case for a zero interest rate: with
`r = 0` the divisor `1 - (1+r)^(-n)` is `0`, so JavaScript produces
`0/0 = NaN` while this embedding produces `0` by the division-by-zero
convention of `ℚ`. -/
def getMonthlyMortgagePayment (deal : RealEstateDeal) (purchasePrice : ℚ) : ℚ :=
  let n : ℕ := deal.mortgageAmortization * 12
  let monthlyMortgageInterestRate : ℚ := deal.annualMortgageInterestRate / 100 / 12
  monthlyPMI deal purchasePrice +
    getLoanAmount deal purchasePrice * monthlyMortgageInterestRate /
      (1 - (1 + monthlyMortgageInterestRate) ^ (-(n : ℤ)))

/-! ExpenseCalculationService (src/ExpenseCalculationService.ts).  The
service object carries a deal, a purchase price and a mortgage service;
the mortgage payment never reads `monthlyRent`, so passing the deal
itself to the payment function is observationally the same as passing
the separately-constructed mortgage service (proved below as
`getMonthlyMortgagePayment_rent_irrelevant`). -/

/-- `getClosingCosts`. -/
def getClosingCosts (purchasePrice : ℚ) : ℚ :=
  CLOSING_COST_RATE * purchasePrice

/-- `getAnnualCapEx`. -/
def getAnnualCapEx (deal : RealEstateDeal) (purchasePrice : ℚ) : ℚ :=
  if deal.monthlyHoaDues > 0 then 0 else purchasePrice * CAPEX_RATE

/-- `getAnnualMaintenance`. -/
def getAnnualMaintenance (deal : RealEstateDeal) (purchasePrice : ℚ) : ℚ :=
  purchasePrice *
    (if deal.newConstruction then MAINTENANCE_RATE_NEW_CONSTRUCTION
     else MAINTENANCE_RATE_EXISTING_CONSTRUCTION)

/-- `getAnnualInsurance`; the source tests JavaScript truthiness of
`monthlyHoaDues`, i.e. `≠ 0`. -/
def getAnnualInsurance (deal : RealEstateDeal) (purchasePrice : ℚ) : ℚ :=
  if deal.monthlyHoaDues ≠ 0 then CONDO_INSURANCE_RATE
  else purchasePrice * BASE_INSURANCE_RATE

/-- `getAnnualManagement`. -/
def getAnnualManagement (deal : RealEstateDeal) : ℚ :=
  if !deal.needsPropertyManagement then 0
  else
    deal.monthlyRent * 12 *
      (if deal.unitCount > 4 then MANAGEMENT_RATE_MULTI_FAMILY
       else MANAGEMENT_RATE_SINGLE_FAMILY)

/-- `getAnnualUtilities`. -/
def getAnnualUtilities (deal : RealEstateDeal) : ℚ :=
  if !deal.landlordPaidUtilities then 0
  else (deal.unitCount : ℚ) * UNIT_UTILITY_COST * 12

/-- `totalAnnualExpenses` field of `getAnnualExpenses`: the sum of the nine
itemized annual expenses, in source order. -/
def totalAnnualExpenses (deal : RealEstateDeal) (purchasePrice : ℚ) : ℚ :=
  getMonthlyMortgagePayment deal purchasePrice * 12 +
    deal.monthlyHoaDues * 12 +
    getAnnualUtilities deal +
    getAnnualManagement deal +
    getAnnualCapEx deal purchasePrice +
    getAnnualMaintenance deal purchasePrice +
    purchasePrice * (deal.propertyTaxRate / 100) +
    getAnnualInsurance deal purchasePrice +
    deal.monthlyRent * 12 * (deal.vacancyRate / 100)

/-! ReturnCalculationService (src/ReturnCalculationService.ts). -/

/-- The record of per-year figures produced by `getInitialMetrics` and
`calculateYearlyMetrics`. -/
structure YearMetrics where
  annualRent : ℚ
  cashFlow : ℚ
  principalPaid : ℚ
  appreciation : ℚ
  remainingBalance : ℚ
  totalPrincipalPaid : ℚ
  totalAppreciation : ℚ
deriving DecidableEq

/-- `getArrAvg`: `arr.reduce((acc, v) => acc + v, 0) / arr.length`. -/
def getArrAvg (arr : List ℚ) : ℚ :=
  arr.foldl (· + ·) 0 / (arr.length : ℚ)

/-- `getInitialMetrics`. -/
def getInitialMetrics (deal : RealEstateDeal) (purchasePrice : ℚ) : YearMetrics where
  annualRent := deal.monthlyRent * 12
  cashFlow := 0
  principalPaid := 0
  appreciation := 0
  remainingBalance := getLoanAmount deal purchasePrice
  totalPrincipalPaid := 0
  totalAppreciation := 0

/-- `calculatePrincipalReduction` (applied, as in `calculateYearlyMetrics`,
to an explicit remaining loan balance). -/
def calculatePrincipalReduction (deal : RealEstateDeal) (purchasePrice : ℚ)
    (remainingLoanBalance : ℚ) : ℚ :=
  getMonthlyMortgagePayment deal purchasePrice * 12 -
    remainingLoanBalance * (deal.annualMortgageInterestRate / 100)

/-- The `for` loops in `calculateAppreciation` multiply a start value by a
rate once per year from 1 to `k`; this helper is that loop. -/
def compoundGrow (start rate : ℚ) : ℕ → ℚ
  | 0 => start
  | k + 1 => compoundGrow start rate k * rate

/-- `calculateAppreciation`.  For a multi-unit deal the implied value is
rent-proportional; for a single unit the purchase price compounds at the
fixed home-appreciation rate.  `appreciationYear = 0` returns 0 via the
`< 1` guard. -/
def calculateAppreciation (deal : RealEstateDeal) (purchasePrice : ℚ)
    (appreciationYear : ℕ) : ℚ :=
  if appreciationYear < 1 then 0
  else if deal.unitCount > 1 then
    let rentIncreaseRate : ℚ := 1 + APPRECIATION_RATE_RENT
    let newRent := compoundGrow deal.monthlyRent rentIncreaseRate appreciationYear
    let prevRent := newRent / rentIncreaseRate
    let prevValue := prevRent * purchasePrice / deal.monthlyRent
    newRent * prevValue / prevRent - prevValue
  else
    compoundGrow purchasePrice (1 + APPRECIATION_RATE_SFH) appreciationYear -
      compoundGrow purchasePrice (1 + APPRECIATION_RATE_SFH) (appreciationYear - 1)

/-- `calculateYearlyMetrics`.  The source builds a fresh
`ExpenseCalculationService` over `modifiedDeal` but reuses the mortgage
service of the original deal; since the mortgage payment does not read
`monthlyRent` (see `getMonthlyMortgagePayment_rent_irrelevant`), computing
it from `modifiedDeal` is the same value. -/
def calculateYearlyMetrics (deal : RealEstateDeal) (purchasePrice : ℚ)
    (year : ℕ) (prevMetrics : YearMetrics) : YearMetrics :=
  let modifiedDeal := { deal with monthlyRent := prevMetrics.annualRent / 12 }
  let cashFlow := prevMetrics.annualRent - totalAnnualExpenses modifiedDeal purchasePrice
  let annualRent := prevMetrics.annualRent * (1 + APPRECIATION_RATE_RENT)
  let principalPaid := calculatePrincipalReduction deal purchasePrice prevMetrics.remainingBalance
  let appreciation := calculateAppreciation deal purchasePrice year
  { annualRent := annualRent
    cashFlow := cashFlow
    principalPaid := principalPaid
    appreciation := appreciation
    remainingBalance := prevMetrics.remainingBalance - principalPaid
    totalPrincipalPaid := prevMetrics.totalPrincipalPaid + principalPaid
    totalAppreciation := prevMetrics.totalAppreciation + appreciation }

/-- The state of the yearly-metrics chain after `k` iterations of the
loop `metrics = calculateYearlyMetrics(year, metrics)` (year = k). -/
def metricsAfter (deal : RealEstateDeal) (purchasePrice : ℚ) : ℕ → YearMetrics
  | 0 => getInitialMetrics deal purchasePrice
  | k + 1 => calculateYearlyMetrics deal purchasePrice (k + 1)
      (metricsAfter deal purchasePrice k)

/-- `getInitialInvestment`. -/
def getInitialInvestment (deal : RealEstateDeal) (purchasePrice : ℚ) : ℚ :=
  getClosingCosts purchasePrice + getDownPayment deal purchasePrice

/-- The list of per-year cash flows pushed by the loop in `getCashflows`. -/
def yearlyCashflowList (deal : RealEstateDeal) (purchasePrice : ℚ) : List ℚ :=
  (List.range INVESTMENT_YEAR_TIME_HORIZON).map fun k =>
    (metricsAfter deal purchasePrice (k + 1)).cashFlow

/-- Result record of `getCashflows`. -/
structure CashflowsResult where
  cashflows : List ℚ
  trueCashflows : List ℚ
  avgCashflow : ℚ
deriving DecidableEq

/-- `getCashflows`: the initial investment is prepended negated, the five
yearly cash flows are pushed, `trueCashflows` is `cashflows.slice(1)`
taken before the mutation `cashflows[years] += gainedEquity`. -/
def getCashflows (deal : RealEstateDeal) (purchasePrice : ℚ) : CashflowsResult :=
  let years := INVESTMENT_YEAR_TIME_HORIZON
  let cashflows := -getInitialInvestment deal purchasePrice ::
    yearlyCashflowList deal purchasePrice
  let finalMetrics := metricsAfter deal purchasePrice years
  let gainedEquity := finalMetrics.totalPrincipalPaid + finalMetrics.totalAppreciation
  let trueCashflows := cashflows.drop 1
  let cashflows := cashflows.set years (cashflows.getD years 0 + gainedEquity)
  { cashflows := cashflows
    trueCashflows := trueCashflows
    avgCashflow := getArrAvg trueCashflows }

/-- Result record of `getReturns`. -/
structure ReturnsResult where
  yields : List ℚ
  amounts : List ℚ
  avgYield : ℚ
  avgAmount : ℚ
deriving DecidableEq

/-- `getReturns`. -/
def getReturns (deal : RealEstateDeal) (purchasePrice : ℚ) : ReturnsResult :=
  let initialInvestment := getInitialInvestment deal purchasePrice
  let amounts := (List.range INVESTMENT_YEAR_TIME_HORIZON).map fun k =>
    let m := metricsAfter deal purchasePrice (k + 1)
    m.cashFlow + m.principalPaid + m.appreciation
  let yields := amounts.map (· / initialInvestment)
  { yields := yields
    amounts := amounts
    avgYield := getArrAvg yields
    avgAmount := getArrAvg amounts }

/-- `getAvgCOCROI`. -/
def getAvgCOCROI (deal : RealEstateDeal) (purchasePrice : ℚ) : ℚ :=
  (getCashflows deal purchasePrice).avgCashflow / getInitialInvestment deal purchasePrice

/-- The IRR solver tolerance `1e-6`. -/
def irrTolerance : ℚ := 1 / 1000000

/-- Net present value of a cash-flow series at rate `r`:
`cashflows.reduce((acc, cf, i) => acc + cf / (1 + r) ** i, 0)`. -/
def npv (cashflows : List ℚ) (r : ℚ) : ℚ :=
  cashflows.enum.foldl (fun acc x => acc + x.2 / (1 + r) ^ x.1) 0

/-- The body of the `for` loop of `calculateIRR`, with the remaining
iteration count as fuel; `none` models the `throw` on non-convergence. -/
def irrLoop (cashflows : List ℚ) : ℕ → ℚ → ℚ → Option ℚ
  | 0, _, _ => none
  | fuel + 1, low, high =>
    let mid := (low + high) / 2
    let v := npv cashflows mid
    if |v| < irrTolerance then some mid
    else if v < 0 then irrLoop cashflows fuel low mid
    else irrLoop cashflows fuel mid high

/-- `calculateIRR`: 1000 bisection iterations over `[0, 1]`. -/
def calculateIRR (cashflows : List ℚ) : Option ℚ :=
  irrLoop cashflows 1000 0 1

/-- `getIRR`: the `try`/`catch` that maps a non-convergence throw to `0`.
(The `undefined`/`NaN` re-check in the source is unreachable in the
embedding: `calculateIRR` either returns a rational or throws.) -/
def getIRR (deal : RealEstateDeal) (purchasePrice : ℚ) : ℚ :=
  (calculateIRR (getCashflows deal purchasePrice).cashflows).getD 0

/-! RealEstateDealAnalyser (src/RealEstateDealAnalyser.ts). -/

/-- The classification returned by `checkDealCriteria`; the source uses
the strings `max` (spec: ExactMinimum), `good` (spec: Acceptable) and
`bad` (spec: TooLow). -/
inductive DealClass
  | max
  | good
  | bad
deriving DecidableEq

/-- The `minimumCashflow` threshold of `checkDealCriteria`. -/
def minimumCashflow (deal : RealEstateDeal) : ℚ :=
  MINIMUM_MONTHLY_CASHFLOW_PER_DOOR * (deal.unitCount : ℚ) * 12

/-- `checkDealCriteria`.  `Math.floor(avgCashflow) === minimumCashflow`
compares the floor (a number in JavaScript) with the threshold, modelled
as an equality in `ℚ` after casting the floor back. -/
def checkDealCriteria (deal : RealEstateDeal) (purchasePrice : ℚ) : DealClass :=
  let avgYield := (getReturns deal purchasePrice).avgYield
  let avgCashflow := (getCashflows deal purchasePrice).avgCashflow
  let avgCOCROI := getAvgCOCROI deal purchasePrice
  if avgYield ≥ MINIMUM_ROI ∧ avgCashflow ≥ minimumCashflow deal ∧
      avgCOCROI ≥ MINIMUM_COC_ROI then
    if (⌊avgCashflow⌋ : ℚ) = minimumCashflow deal then .max else .good
  else .bad

/-- Phase 1 of `adjustToMaxPurchasePrice`: starting from price 1, double
while the criteria check is not `bad`.  The source loop has no iteration
bound, so the embedding carries fuel; `none` means the fuel ran out. -/
def expandPrice (deal : RealEstateDeal) : ℕ → ℤ → Option ℤ
  | 0, _ => none
  | fuel + 1, price =>
    if checkDealCriteria deal (price : ℚ) = .bad then some price
    else expandPrice deal fuel (2 * price)

/-- Phase 2 of `adjustToMaxPurchasePrice`: binary search on
`[left, right]`.  `middle` is `Math.floor((left + right) / 2)`; on `bad`
the right bound moves below `middle`, on `max` the loop breaks and the
final price is the current `right`, and when `left > right` the final
price is `right`. -/
def binarySearchPrice (deal : RealEstateDeal) : ℕ → ℤ → ℤ → Option ℤ
  | 0, _, _ => none
  | fuel + 1, left, right =>
    if left ≤ right then
      let middle : ℤ := ⌊((left : ℚ) + (right : ℚ)) / 2⌋
      match checkDealCriteria deal (middle : ℚ) with
      | .bad => binarySearchPrice deal fuel left (middle - 1)
      | .max => some right
      | .good => binarySearchPrice deal fuel (middle + 1) right
    else some right

/-- `adjustToMaxPurchasePrice`, returning the final purchase price. -/
def adjustToMaxPurchasePrice (deal : RealEstateDeal) (fuel : ℕ) : Option ℤ :=
  (expandPrice deal fuel 1).bind fun upper => binarySearchPrice deal fuel 0 upper

/-! Helper lemmas: single steps of the IRR bisection loop. -/

/-- One bisection step that meets the tolerance and returns the midpoint. -/
lemma irrLoop_step_conv {cashflows : List ℚ} {low high mid : ℚ} (fuel : ℕ)
    (hmid : (low + high) / 2 = mid) (h : |npv cashflows mid| < irrTolerance) :
    irrLoop cashflows (fuel + 1) low high = some mid := by
  simp only [irrLoop, hmid, if_pos h]

/-- One bisection step with negative net present value: the upper bound
moves down to the midpoint. -/
lemma irrLoop_step_down {cashflows : List ℚ} {low high mid : ℚ} (fuel : ℕ)
    (hmid : (low + high) / 2 = mid) (h1 : ¬ |npv cashflows mid| < irrTolerance)
    (h2 : npv cashflows mid < 0) :
    irrLoop cashflows (fuel + 1) low high = irrLoop cashflows fuel low mid := by
  simp only [irrLoop, hmid, if_neg h1, if_pos h2]

/-- One bisection step with nonnegative net present value: the lower bound
moves up to the midpoint. -/
lemma irrLoop_step_up {cashflows : List ℚ} {low high mid : ℚ} (fuel : ℕ)
    (hmid : (low + high) / 2 = mid) (h1 : ¬ |npv cashflows mid| < irrTolerance)
    (h2 : ¬ npv cashflows mid < 0) :
    irrLoop cashflows (fuel + 1) low high = irrLoop cashflows fuel mid high := by
  simp only [irrLoop, hmid, if_neg h1, if_neg h2]

/-- Closed form of the net present value of the two-entry test series. -/
lemma npv_roundtrip (r : ℚ) : npv [-1000, 1100] r = -1000 + 1100 / (1 + r) := by
  unfold npv
  rw [show List.enum [(-1000 : ℚ), 1100] = [(0, -1000), (1, 1100)] from rfl,
    List.foldl_cons, List.foldl_cons, List.foldl_nil]
  show (0 : ℚ) + -1000 / (1 + r) ^ (0 : ℕ) + 1100 / (1 + r) ^ (1 : ℕ) =
    -1000 + 1100 / (1 + r)
  rw [pow_zero, pow_one, div_one]
  ring

/-! Projection lemmas for the metric records. -/

lemma getInitialMetrics_annualRent (deal : RealEstateDeal) (p : ℚ) :
    (getInitialMetrics deal p).annualRent = deal.monthlyRent * 12 := rfl

lemma getInitialMetrics_remainingBalance (deal : RealEstateDeal) (p : ℚ) :
    (getInitialMetrics deal p).remainingBalance = getLoanAmount deal p := rfl

lemma getInitialMetrics_totalPrincipalPaid (deal : RealEstateDeal) (p : ℚ) :
    (getInitialMetrics deal p).totalPrincipalPaid = 0 := rfl

lemma calculateYearlyMetrics_remainingBalance (deal : RealEstateDeal) (p : ℚ)
    (year : ℕ) (m : YearMetrics) :
    (calculateYearlyMetrics deal p year m).remainingBalance =
      m.remainingBalance - calculatePrincipalReduction deal p m.remainingBalance := rfl

lemma calculateYearlyMetrics_totalPrincipalPaid (deal : RealEstateDeal) (p : ℚ)
    (year : ℕ) (m : YearMetrics) :
    (calculateYearlyMetrics deal p year m).totalPrincipalPaid =
      m.totalPrincipalPaid + calculatePrincipalReduction deal p m.remainingBalance := rfl

/-- The average of a five-element list is the arithmetic mean. -/
lemma getArrAvg_five (a b c d e : ℚ) :
    getArrAvg [a, b, c, d, e] = (a + b + c + d + e) / 5 := by
  unfold getArrAvg
  rw [List.foldl_cons, List.foldl_cons, List.foldl_cons, List.foldl_cons,
    List.foldl_cons, List.foldl_nil]
  show ((0 : ℚ) + a + b + c + d + e) / ((5 : ℕ) : ℚ) = (a + b + c + d + e) / 5
  push_cast
  ring

/-- The predicate tested by `checkDealCriteria`: all three return
thresholds hold. -/
def meetsCriteria (deal : RealEstateDeal) (p : ℚ) : Prop :=
  (getReturns deal p).avgYield ≥ MINIMUM_ROI ∧
    (getCashflows deal p).avgCashflow ≥ minimumCashflow deal ∧
    getAvgCOCROI deal p ≥ MINIMUM_COC_ROI

instance (deal : RealEstateDeal) (p : ℚ) : Decidable (meetsCriteria deal p) := by
  unfold meetsCriteria; infer_instance

/-- `checkDealCriteria` as a single conditional over `meetsCriteria`. -/
lemma checkDealCriteria_eq (deal : RealEstateDeal) (p : ℚ) :
    checkDealCriteria deal p =
      if meetsCriteria deal p then
        (if (⌊(getCashflows deal p).avgCashflow⌋ : ℚ) = minimumCashflow deal
         then DealClass.max else DealClass.good)
      else DealClass.bad := by
  simp only [checkDealCriteria, meetsCriteria]

lemma checkDealCriteria_eq_bad_iff (deal : RealEstateDeal) (p : ℚ) :
    checkDealCriteria deal p = .bad ↔ ¬ meetsCriteria deal p := by
  rw [checkDealCriteria_eq]
  split_ifs with h h2 <;> simp [h]

lemma checkDealCriteria_ne_bad_iff (deal : RealEstateDeal) (p : ℚ) :
    checkDealCriteria deal p ≠ .bad ↔ meetsCriteria deal p := by
  rw [Ne, checkDealCriteria_eq_bad_iff, not_not]

/-- Claim C1: the classification is Acceptable (`good`) or ExactMinimum
(`max`) exactly when all of average yield, average cashflow and average
cash-on-cash ROI meet their minimums; among those, ExactMinimum holds
exactly when the floor of the average cashflow equals the cashflow
threshold `MINIMUM_MONTHLY_CASHFLOW_PER_DOOR * unitCount * 12`; otherwise
the classification is TooLow (`bad`). -/
theorem classification_criteria (deal : RealEstateDeal) (p : ℚ) :
    ((checkDealCriteria deal p = .good ∨ checkDealCriteria deal p = .max) ↔
      ((getReturns deal p).avgYield ≥ MINIMUM_ROI ∧
        (getCashflows deal p).avgCashflow ≥
          MINIMUM_MONTHLY_CASHFLOW_PER_DOOR * (deal.unitCount : ℚ) * 12 ∧
        getAvgCOCROI deal p ≥ MINIMUM_COC_ROI)) ∧
    ((checkDealCriteria deal p = .max) ↔
      (((getReturns deal p).avgYield ≥ MINIMUM_ROI ∧
        (getCashflows deal p).avgCashflow ≥
          MINIMUM_MONTHLY_CASHFLOW_PER_DOOR * (deal.unitCount : ℚ) * 12 ∧
        getAvgCOCROI deal p ≥ MINIMUM_COC_ROI) ∧
       (⌊(getCashflows deal p).avgCashflow⌋ : ℚ) =
         MINIMUM_MONTHLY_CASHFLOW_PER_DOOR * (deal.unitCount : ℚ) * 12)) ∧
    ((checkDealCriteria deal p = .bad) ↔
      ¬ ((getReturns deal p).avgYield ≥ MINIMUM_ROI ∧
        (getCashflows deal p).avgCashflow ≥
          MINIMUM_MONTHLY_CASHFLOW_PER_DOOR * (deal.unitCount : ℚ) * 12 ∧
        getAvgCOCROI deal p ≥ MINIMUM_COC_ROI)) := by
  have hmc : MINIMUM_MONTHLY_CASHFLOW_PER_DOOR * (deal.unitCount : ℚ) * 12 =
      minimumCashflow deal := rfl
  rw [hmc, checkDealCriteria_eq]
  split_ifs with h hf <;> simp_all [meetsCriteria]

/-- Claim C10: along the projection chain the remaining balance plus the
cumulative principal paid is always the loan amount; the invariant holds
initially and is preserved by each application of the yearly transition. -/
theorem balance_principal_invariant (deal : RealEstateDeal) (p : ℚ) :
    (∀ k : ℕ, (metricsAfter deal p k).remainingBalance +
        (metricsAfter deal p k).totalPrincipalPaid = getLoanAmount deal p) ∧
    (∀ (year : ℕ) (prev : YearMetrics),
        (calculateYearlyMetrics deal p year prev).remainingBalance +
          (calculateYearlyMetrics deal p year prev).totalPrincipalPaid =
          prev.remainingBalance + prev.totalPrincipalPaid) := by
  constructor
  · intro k
    induction k with
    | zero =>
      show getLoanAmount deal p + 0 = getLoanAmount deal p
      ring
    | succ n ih =>
      show (metricsAfter deal p n).remainingBalance -
            calculatePrincipalReduction deal p (metricsAfter deal p n).remainingBalance +
          ((metricsAfter deal p n).totalPrincipalPaid +
            calculatePrincipalReduction deal p (metricsAfter deal p n).remainingBalance) =
          getLoanAmount deal p
      rw [← ih]
      ring
  · intro year prev
    rw [calculateYearlyMetrics_remainingBalance, calculateYearlyMetrics_totalPrincipalPaid]
    ring

/-- Claim C3: each yearly transition computes the cash flow from the
previous annual rent minus the total annual expenses taken at that rent
(with the mortgage payment unchanged, since it never reads the rent), the
principal paid as the annuity payment minus interest on the incoming
balance, grows the rent by the rent-appreciation rate, decreases the
balance by the principal paid, and accumulates the cumulative fields. -/
theorem yearly_transition_rules (deal : RealEstateDeal) (p : ℚ) (year : ℕ)
    (prev : YearMetrics) :
    (calculateYearlyMetrics deal p year prev).cashFlow =
        prev.annualRent -
          totalAnnualExpenses { deal with monthlyRent := prev.annualRent / 12 } p ∧
    (calculateYearlyMetrics deal p year prev).principalPaid =
        getMonthlyMortgagePayment deal p * 12 -
          prev.remainingBalance * (deal.annualMortgageInterestRate / 100) ∧
    (calculateYearlyMetrics deal p year prev).annualRent =
        prev.annualRent * (1 + APPRECIATION_RATE_RENT) ∧
    (calculateYearlyMetrics deal p year prev).remainingBalance =
        prev.remainingBalance -
          (getMonthlyMortgagePayment deal p * 12 -
            prev.remainingBalance * (deal.annualMortgageInterestRate / 100)) ∧
    (calculateYearlyMetrics deal p year prev).totalPrincipalPaid =
        prev.totalPrincipalPaid +
          (getMonthlyMortgagePayment deal p * 12 -
            prev.remainingBalance * (deal.annualMortgageInterestRate / 100)) ∧
    (calculateYearlyMetrics deal p year prev).totalAppreciation =
        prev.totalAppreciation + calculateAppreciation deal p year ∧
    ∀ x : ℚ, getMonthlyMortgagePayment { deal with monthlyRent := x } p =
        getMonthlyMortgagePayment deal p :=
  ⟨rfl, rfl, rfl, rfl, rfl, rfl, fun _ => rfl⟩

/-- Claim C2: the cash-flow series starts with the negated initial
investment, continues with the five per-year cash flows, and has the
gained equity (final cumulative principal plus final cumulative
appreciation) added to the last entry only; `trueCashflows` drops the
first entry and carries no equity bump, and `avgCashflow` is the
arithmetic mean of `trueCashflows`. -/
theorem cashflow_series_shape (deal : RealEstateDeal) (p : ℚ) :
    (getCashflows deal p).cashflows =
      [-getInitialInvestment deal p,
        (metricsAfter deal p 1).cashFlow, (metricsAfter deal p 2).cashFlow,
        (metricsAfter deal p 3).cashFlow, (metricsAfter deal p 4).cashFlow,
        (metricsAfter deal p 5).cashFlow +
          ((metricsAfter deal p 5).totalPrincipalPaid +
            (metricsAfter deal p 5).totalAppreciation)] ∧
    (getCashflows deal p).trueCashflows =
      [(metricsAfter deal p 1).cashFlow, (metricsAfter deal p 2).cashFlow,
        (metricsAfter deal p 3).cashFlow, (metricsAfter deal p 4).cashFlow,
        (metricsAfter deal p 5).cashFlow] ∧
    (getCashflows deal p).avgCashflow =
      ((metricsAfter deal p 1).cashFlow + (metricsAfter deal p 2).cashFlow +
        (metricsAfter deal p 3).cashFlow + (metricsAfter deal p 4).cashFlow +
        (metricsAfter deal p 5).cashFlow) / 5 := by
  refine ⟨rfl, rfl, ?_⟩
  show getArrAvg [(metricsAfter deal p 1).cashFlow, (metricsAfter deal p 2).cashFlow,
    (metricsAfter deal p 3).cashFlow, (metricsAfter deal p 4).cashFlow,
    (metricsAfter deal p 5).cashFlow] = _
  rw [getArrAvg_five]

/-- The concrete 29-step bisection run on the series `[-1000, 1100]`. -/
lemma calculateIRR_roundtrip_value :
    calculateIRR [-1000, 1100] = some (53687091 / 536870912) := by
  show irrLoop [-1000, 1100] 1000 0 1 = some (53687091 / 536870912)
  have e1 : irrLoop [-1000, 1100] 1000 0 1 = irrLoop [-1000, 1100] 999 (0) (1 / 2) :=
    irrLoop_step_down 999 (by norm_num) (by rw [npv_roundtrip]; norm_num [abs_lt, irrTolerance]) (by rw [npv_roundtrip]; norm_num)
  have e2 : irrLoop [-1000, 1100] 999 (0) (1 / 2) = irrLoop [-1000, 1100] 998 (0) (1 / 4) :=
    irrLoop_step_down 998 (by norm_num) (by rw [npv_roundtrip]; norm_num [abs_lt, irrTolerance]) (by rw [npv_roundtrip]; norm_num)
  have e3 : irrLoop [-1000, 1100] 998 (0) (1 / 4) = irrLoop [-1000, 1100] 997 (0) (1 / 8) :=
    irrLoop_step_down 997 (by norm_num) (by rw [npv_roundtrip]; norm_num [abs_lt, irrTolerance]) (by rw [npv_roundtrip]; norm_num)
  have e4 : irrLoop [-1000, 1100] 997 (0) (1 / 8) = irrLoop [-1000, 1100] 996 (1 / 16) (1 / 8) :=
    irrLoop_step_up 996 (by norm_num) (by rw [npv_roundtrip]; norm_num [abs_lt, irrTolerance]) (by rw [npv_roundtrip]; norm_num)
  have e5 : irrLoop [-1000, 1100] 996 (1 / 16) (1 / 8) = irrLoop [-1000, 1100] 995 (3 / 32) (1 / 8) :=
    irrLoop_step_up 995 (by norm_num) (by rw [npv_roundtrip]; norm_num [abs_lt, irrTolerance]) (by rw [npv_roundtrip]; norm_num)
  have e6 : irrLoop [-1000, 1100] 995 (3 / 32) (1 / 8) = irrLoop [-1000, 1100] 994 (3 / 32) (7 / 64) :=
    irrLoop_step_down 994 (by norm_num) (by rw [npv_roundtrip]; norm_num [abs_lt, irrTolerance]) (by rw [npv_roundtrip]; norm_num)
  have e7 : irrLoop [-1000, 1100] 994 (3 / 32) (7 / 64) = irrLoop [-1000, 1100] 993 (3 / 32) (13 / 128) :=
    irrLoop_step_down 993 (by norm_num) (by rw [npv_roundtrip]; norm_num [abs_lt, irrTolerance]) (by rw [npv_roundtrip]; norm_num)
  have e8 : irrLoop [-1000, 1100] 993 (3 / 32) (13 / 128) = irrLoop [-1000, 1100] 992 (25 / 256) (13 / 128) :=
    irrLoop_step_up 992 (by norm_num) (by rw [npv_roundtrip]; norm_num [abs_lt, irrTolerance]) (by rw [npv_roundtrip]; norm_num)
  have e9 : irrLoop [-1000, 1100] 992 (25 / 256) (13 / 128) = irrLoop [-1000, 1100] 991 (51 / 512) (13 / 128) :=
    irrLoop_step_up 991 (by norm_num) (by rw [npv_roundtrip]; norm_num [abs_lt, irrTolerance]) (by rw [npv_roundtrip]; norm_num)
  have e10 : irrLoop [-1000, 1100] 991 (51 / 512) (13 / 128) = irrLoop [-1000, 1100] 990 (51 / 512) (103 / 1024) :=
    irrLoop_step_down 990 (by norm_num) (by rw [npv_roundtrip]; norm_num [abs_lt, irrTolerance]) (by rw [npv_roundtrip]; norm_num)
  have e11 : irrLoop [-1000, 1100] 990 (51 / 512) (103 / 1024) = irrLoop [-1000, 1100] 989 (51 / 512) (205 / 2048) :=
    irrLoop_step_down 989 (by norm_num) (by rw [npv_roundtrip]; norm_num [abs_lt, irrTolerance]) (by rw [npv_roundtrip]; norm_num)
  have e12 : irrLoop [-1000, 1100] 989 (51 / 512) (205 / 2048) = irrLoop [-1000, 1100] 988 (409 / 4096) (205 / 2048) :=
    irrLoop_step_up 988 (by norm_num) (by rw [npv_roundtrip]; norm_num [abs_lt, irrTolerance]) (by rw [npv_roundtrip]; norm_num)
  have e13 : irrLoop [-1000, 1100] 988 (409 / 4096) (205 / 2048) = irrLoop [-1000, 1100] 987 (819 / 8192) (205 / 2048) :=
    irrLoop_step_up 987 (by norm_num) (by rw [npv_roundtrip]; norm_num [abs_lt, irrTolerance]) (by rw [npv_roundtrip]; norm_num)
  have e14 : irrLoop [-1000, 1100] 987 (819 / 8192) (205 / 2048) = irrLoop [-1000, 1100] 986 (819 / 8192) (1639 / 16384) :=
    irrLoop_step_down 986 (by norm_num) (by rw [npv_roundtrip]; norm_num [abs_lt, irrTolerance]) (by rw [npv_roundtrip]; norm_num)
  have e15 : irrLoop [-1000, 1100] 986 (819 / 8192) (1639 / 16384) = irrLoop [-1000, 1100] 985 (819 / 8192) (3277 / 32768) :=
    irrLoop_step_down 985 (by norm_num) (by rw [npv_roundtrip]; norm_num [abs_lt, irrTolerance]) (by rw [npv_roundtrip]; norm_num)
  have e16 : irrLoop [-1000, 1100] 985 (819 / 8192) (3277 / 32768) = irrLoop [-1000, 1100] 984 (6553 / 65536) (3277 / 32768) :=
    irrLoop_step_up 984 (by norm_num) (by rw [npv_roundtrip]; norm_num [abs_lt, irrTolerance]) (by rw [npv_roundtrip]; norm_num)
  have e17 : irrLoop [-1000, 1100] 984 (6553 / 65536) (3277 / 32768) = irrLoop [-1000, 1100] 983 (13107 / 131072) (3277 / 32768) :=
    irrLoop_step_up 983 (by norm_num) (by rw [npv_roundtrip]; norm_num [abs_lt, irrTolerance]) (by rw [npv_roundtrip]; norm_num)
  have e18 : irrLoop [-1000, 1100] 983 (13107 / 131072) (3277 / 32768) = irrLoop [-1000, 1100] 982 (13107 / 131072) (26215 / 262144) :=
    irrLoop_step_down 982 (by norm_num) (by rw [npv_roundtrip]; norm_num [abs_lt, irrTolerance]) (by rw [npv_roundtrip]; norm_num)
  have e19 : irrLoop [-1000, 1100] 982 (13107 / 131072) (26215 / 262144) = irrLoop [-1000, 1100] 981 (13107 / 131072) (52429 / 524288) :=
    irrLoop_step_down 981 (by norm_num) (by rw [npv_roundtrip]; norm_num [abs_lt, irrTolerance]) (by rw [npv_roundtrip]; norm_num)
  have e20 : irrLoop [-1000, 1100] 981 (13107 / 131072) (52429 / 524288) = irrLoop [-1000, 1100] 980 (104857 / 1048576) (52429 / 524288) :=
    irrLoop_step_up 980 (by norm_num) (by rw [npv_roundtrip]; norm_num [abs_lt, irrTolerance]) (by rw [npv_roundtrip]; norm_num)
  have e21 : irrLoop [-1000, 1100] 980 (104857 / 1048576) (52429 / 524288) = irrLoop [-1000, 1100] 979 (209715 / 2097152) (52429 / 524288) :=
    irrLoop_step_up 979 (by norm_num) (by rw [npv_roundtrip]; norm_num [abs_lt, irrTolerance]) (by rw [npv_roundtrip]; norm_num)
  have e22 : irrLoop [-1000, 1100] 979 (209715 / 2097152) (52429 / 524288) = irrLoop [-1000, 1100] 978 (209715 / 2097152) (419431 / 4194304) :=
    irrLoop_step_down 978 (by norm_num) (by rw [npv_roundtrip]; norm_num [abs_lt, irrTolerance]) (by rw [npv_roundtrip]; norm_num)
  have e23 : irrLoop [-1000, 1100] 978 (209715 / 2097152) (419431 / 4194304) = irrLoop [-1000, 1100] 977 (209715 / 2097152) (838861 / 8388608) :=
    irrLoop_step_down 977 (by norm_num) (by rw [npv_roundtrip]; norm_num [abs_lt, irrTolerance]) (by rw [npv_roundtrip]; norm_num)
  have e24 : irrLoop [-1000, 1100] 977 (209715 / 2097152) (838861 / 8388608) = irrLoop [-1000, 1100] 976 (1677721 / 16777216) (838861 / 8388608) :=
    irrLoop_step_up 976 (by norm_num) (by rw [npv_roundtrip]; norm_num [abs_lt, irrTolerance]) (by rw [npv_roundtrip]; norm_num)
  have e25 : irrLoop [-1000, 1100] 976 (1677721 / 16777216) (838861 / 8388608) = irrLoop [-1000, 1100] 975 (3355443 / 33554432) (838861 / 8388608) :=
    irrLoop_step_up 975 (by norm_num) (by rw [npv_roundtrip]; norm_num [abs_lt, irrTolerance]) (by rw [npv_roundtrip]; norm_num)
  have e26 : irrLoop [-1000, 1100] 975 (3355443 / 33554432) (838861 / 8388608) = irrLoop [-1000, 1100] 974 (3355443 / 33554432) (6710887 / 67108864) :=
    irrLoop_step_down 974 (by norm_num) (by rw [npv_roundtrip]; norm_num [abs_lt, irrTolerance]) (by rw [npv_roundtrip]; norm_num)
  have e27 : irrLoop [-1000, 1100] 974 (3355443 / 33554432) (6710887 / 67108864) = irrLoop [-1000, 1100] 973 (3355443 / 33554432) (13421773 / 134217728) :=
    irrLoop_step_down 973 (by norm_num) (by rw [npv_roundtrip]; norm_num [abs_lt, irrTolerance]) (by rw [npv_roundtrip]; norm_num)
  have e28 : irrLoop [-1000, 1100] 973 (3355443 / 33554432) (13421773 / 134217728) = irrLoop [-1000, 1100] 972 (26843545 / 268435456) (13421773 / 134217728) :=
    irrLoop_step_up 972 (by norm_num) (by rw [npv_roundtrip]; norm_num [abs_lt, irrTolerance]) (by rw [npv_roundtrip]; norm_num)
  have e29 : irrLoop [-1000, 1100] 972 (26843545 / 268435456) (13421773 / 134217728) = some (53687091 / 536870912) :=
    irrLoop_step_conv 971 (by norm_num) (by rw [npv_roundtrip]; norm_num [abs_lt, irrTolerance])
  exact e1.trans (e2.trans (e3.trans (e4.trans (e5.trans (e6.trans (e7.trans (e8.trans (e9.trans (e10.trans (e11.trans (e12.trans (e13.trans (e14.trans (e15.trans (e16.trans (e17.trans (e18.trans (e19.trans (e20.trans (e21.trans (e22.trans (e23.trans (e24.trans (e25.trans (e26.trans (e27.trans (e28.trans (e29))))))))))))))))))))))))))))

/-- Claim C9: on the cash-flow series `[-1000, 1100]` the IRR bisection
converges and the returned rate is within `1e-4` of `0.10`. -/
theorem irr_roundtrip_example :
    calculateIRR [-1000, 1100] = some (53687091 / 536870912) ∧
    |(53687091 : ℚ) / 536870912 - 1 / 10| < 1 / 10000 :=
  ⟨calculateIRR_roundtrip_value, by norm_num [abs_lt]⟩

/-! Affine decomposition of the pipeline in the purchase price.  With no
closing equity every dollar figure produced by the projection chain is a
constant plus a slope times the purchase price; the definitions below
name those constants and slopes, and `metricsAfter_affine` proves the
decomposition. -/

/-- The level-payment factor `r / (1 - (1+r)^(-n))` of the mortgage
formula (zero when `r = 0`, by the division-by-zero convention). -/
def mortgageFactor (deal : RealEstateDeal) : ℚ :=
  deal.annualMortgageInterestRate / 100 / 12 /
    (1 - (1 + deal.annualMortgageInterestRate / 100 / 12) ^
      (-(deal.mortgageAmortization * 12 : ℕ) : ℤ))

/-- Slope of the monthly mortgage payment in the purchase price. -/
def paymentSlope (deal : RealEstateDeal) : ℚ :=
  (if deal.downpaymentPercentage ≥ 20 then 0 else PMI_RATE / 12) +
    (1 - deal.downpaymentPercentage / 100) * mortgageFactor deal

lemma getMonthlyMortgagePayment_affine (deal : RealEstateDeal)
    (hCE : deal.closingEquity = none) (p : ℚ) :
    getMonthlyMortgagePayment deal p = paymentSlope deal * p := by
  unfold getMonthlyMortgagePayment monthlyPMI paymentSlope mortgageFactor
    getLoanAmount getDownPayment
  rw [hCE, Option.getD_none, mul_div_assoc]
  split_ifs <;> ring

/-- Slope of the total annual expenses in the purchase price. -/
def expSlope (deal : RealEstateDeal) : ℚ :=
  12 * paymentSlope deal +
    (if deal.monthlyHoaDues > 0 then 0 else CAPEX_RATE) +
    (if deal.newConstruction then MAINTENANCE_RATE_NEW_CONSTRUCTION
     else MAINTENANCE_RATE_EXISTING_CONSTRUCTION) +
    deal.propertyTaxRate / 100 +
    (if deal.monthlyHoaDues ≠ 0 then 0 else BASE_INSURANCE_RATE)

/-- Price-independent part of the total annual expenses, as a function of
the monthly rent figure used for the year. -/
def expConstR (deal : RealEstateDeal) (mRent : ℚ) : ℚ :=
  deal.monthlyHoaDues * 12 +
    getAnnualUtilities deal +
    (if !deal.needsPropertyManagement then 0
     else mRent * 12 *
       (if deal.unitCount > 4 then MANAGEMENT_RATE_MULTI_FAMILY
        else MANAGEMENT_RATE_SINGLE_FAMILY)) +
    (if deal.monthlyHoaDues ≠ 0 then CONDO_INSURANCE_RATE else 0) +
    mRent * 12 * (deal.vacancyRate / 100)

lemma totalAnnualExpenses_affine (deal : RealEstateDeal)
    (hCE : deal.closingEquity = none) (p : ℚ) :
    totalAnnualExpenses deal p =
      expConstR deal deal.monthlyRent + expSlope deal * p := by
  unfold totalAnnualExpenses expConstR expSlope getAnnualManagement
    getAnnualCapEx getAnnualMaintenance getAnnualInsurance
  rw [getMonthlyMortgagePayment_affine deal hCE]
  split_ifs <;> ring

lemma expConstR_rent_update (deal : RealEstateDeal) (v x : ℚ) :
    expConstR { deal with monthlyRent := v } x = expConstR deal x := rfl

lemma expSlope_rent_update (deal : RealEstateDeal) (v : ℚ) :
    expSlope { deal with monthlyRent := v } = expSlope deal := rfl

/-- Annual rent after `k` years of rent appreciation. -/
def rentAt (deal : RealEstateDeal) (k : ℕ) : ℚ :=
  deal.monthlyRent * 12 * (1 + APPRECIATION_RATE_RENT) ^ k

/-- Price-independent part of the cash flow of year `k + 1`. -/
def cashConst (deal : RealEstateDeal) (k : ℕ) : ℚ :=
  rentAt deal k - expConstR deal (rentAt deal k / 12)

/-- Slope of the remaining balance after `k` years. -/
def balCoef (deal : RealEstateDeal) : ℕ → ℚ
  | 0 => 1 - deal.downpaymentPercentage / 100
  | k + 1 =>
    balCoef deal k -
      (12 * paymentSlope deal -
        balCoef deal k * (deal.annualMortgageInterestRate / 100))

/-- Slope of the principal paid in year `k` (zero for `k = 0`). -/
def prinCoef (deal : RealEstateDeal) : ℕ → ℚ
  | 0 => 0
  | k + 1 =>
    12 * paymentSlope deal -
      balCoef deal k * (deal.annualMortgageInterestRate / 100)

/-- Slope of the cumulative principal paid after `k` years. -/
def tppCoef (deal : RealEstateDeal) : ℕ → ℚ
  | 0 => 0
  | k + 1 => tppCoef deal k + prinCoef deal (k + 1)

/-- Slope of the appreciation of year `k` (zero for `k = 0`). -/
def apprCoef (deal : RealEstateDeal) : ℕ → ℚ
  | 0 => 0
  | k + 1 =>
    if deal.unitCount > 1 then
      (1 + APPRECIATION_RATE_RENT) ^ (k + 1) - (1 + APPRECIATION_RATE_RENT) ^ k
    else (1 + APPRECIATION_RATE_SFH) ^ (k + 1) - (1 + APPRECIATION_RATE_SFH) ^ k

/-- Slope of the cumulative appreciation after `k` years. -/
def taCoef (deal : RealEstateDeal) : ℕ → ℚ
  | 0 => 0
  | k + 1 => taCoef deal k + apprCoef deal (k + 1)

lemma compoundGrow_eq (s rate : ℚ) (k : ℕ) :
    compoundGrow s rate k = s * rate ^ k := by
  induction k with
  | zero => rw [compoundGrow, pow_zero, mul_one]
  | succ n ih => rw [compoundGrow, ih, pow_succ, mul_assoc]

lemma calculateAppreciation_affine (deal : RealEstateDeal)
    (hmr : deal.monthlyRent ≠ 0) (p : ℚ) (k : ℕ) :
    calculateAppreciation deal p k = apprCoef deal k * p := by
  cases k with
  | zero =>
    rw [show apprCoef deal 0 = 0 from rfl, zero_mul]
    simp [calculateAppreciation]
  | succ n =>
    simp only [calculateAppreciation, apprCoef]
    rw [if_neg (by omega : ¬ n + 1 < 1), compoundGrow_eq, compoundGrow_eq,
      compoundGrow_eq, show n + 1 - 1 = n from rfl]
    split_ifs with hu
    · have hrate : (1 + APPRECIATION_RATE_RENT : ℚ) ≠ 0 := by
        norm_num [APPRECIATION_RATE_RENT]

      have hpow : ((1 + APPRECIATION_RATE_RENT : ℚ)) ^ n ≠ 0 := pow_ne_zero _ hrate
      field_simp
      ring
    · ring

lemma calculateYearlyMetrics_annualRent (deal : RealEstateDeal) (p : ℚ)
    (year : ℕ) (m : YearMetrics) :
    (calculateYearlyMetrics deal p year m).annualRent =
      m.annualRent * (1 + APPRECIATION_RATE_RENT) := rfl

lemma calculateYearlyMetrics_cashFlow (deal : RealEstateDeal) (p : ℚ)
    (year : ℕ) (m : YearMetrics) :
    (calculateYearlyMetrics deal p year m).cashFlow =
      m.annualRent -
        totalAnnualExpenses { deal with monthlyRent := m.annualRent / 12 } p := rfl

lemma calculateYearlyMetrics_principalPaid (deal : RealEstateDeal) (p : ℚ)
    (year : ℕ) (m : YearMetrics) :
    (calculateYearlyMetrics deal p year m).principalPaid =
      calculatePrincipalReduction deal p m.remainingBalance := rfl

lemma calculateYearlyMetrics_appreciation (deal : RealEstateDeal) (p : ℚ)
    (year : ℕ) (m : YearMetrics) :
    (calculateYearlyMetrics deal p year m).appreciation =
      calculateAppreciation deal p year := rfl

lemma calculateYearlyMetrics_totalAppreciation (deal : RealEstateDeal) (p : ℚ)
    (year : ℕ) (m : YearMetrics) :
    (calculateYearlyMetrics deal p year m).totalAppreciation =
      m.totalAppreciation + calculateAppreciation deal p year := rfl

lemma metricsAfter_zero (deal : RealEstateDeal) (p : ℚ) :
    metricsAfter deal p 0 = getInitialMetrics deal p := rfl

lemma metricsAfter_succ (deal : RealEstateDeal) (p : ℚ) (k : ℕ) :
    metricsAfter deal p (k + 1) =
      calculateYearlyMetrics deal p (k + 1) (metricsAfter deal p k) := rfl

/-- The affine decomposition of the whole projection chain in the
purchase price, for a deal with no closing equity and nonzero rent. -/
lemma metricsAfter_affine (deal : RealEstateDeal)
    (hCE : deal.closingEquity = none) (hmr : deal.monthlyRent ≠ 0) (p : ℚ) :
    ∀ k : ℕ,
      (metricsAfter deal p k).annualRent = rentAt deal k ∧
      (metricsAfter deal p k).remainingBalance = balCoef deal k * p ∧
      (metricsAfter deal p k).totalPrincipalPaid = tppCoef deal k * p ∧
      (metricsAfter deal p k).totalAppreciation = taCoef deal k * p ∧
      (k ≠ 0 →
        (metricsAfter deal p k).cashFlow =
          cashConst deal (k - 1) - expSlope deal * p) ∧
      (metricsAfter deal p k).principalPaid = prinCoef deal k * p ∧
      (metricsAfter deal p k).appreciation = apprCoef deal k * p := by
  intro k
  induction k with
  | zero =>
    refine ⟨?_, ?_, ?_, ?_, fun h => absurd rfl h, ?_, ?_⟩
    · rw [metricsAfter_zero, getInitialMetrics_annualRent, rentAt, pow_zero, mul_one]
    · rw [metricsAfter_zero, getInitialMetrics_remainingBalance]
      unfold getLoanAmount getDownPayment
      rw [hCE, Option.getD_none, show balCoef deal 0 =
        1 - deal.downpaymentPercentage / 100 from rfl]
      ring
    · rw [metricsAfter_zero, getInitialMetrics_totalPrincipalPaid,
        show tppCoef deal 0 = 0 from rfl, zero_mul]
    · rw [metricsAfter_zero, show (getInitialMetrics deal p).totalAppreciation = 0 from rfl,
        show taCoef deal 0 = 0 from rfl, zero_mul]
    · rw [metricsAfter_zero, show (getInitialMetrics deal p).principalPaid = 0 from rfl,
        show prinCoef deal 0 = 0 from rfl, zero_mul]
    · rw [metricsAfter_zero, show (getInitialMetrics deal p).appreciation = 0 from rfl,
        show apprCoef deal 0 = 0 from rfl, zero_mul]
  | succ n ih =>
    obtain ⟨ihRent, ihBal, ihTpp, ihTa, _, _, _⟩ := ih
    have hPay := getMonthlyMortgagePayment_affine deal hCE p
    refine ⟨?_, ?_, ?_, ?_, fun _ => ?_, ?_, ?_⟩
    · rw [metricsAfter_succ, calculateYearlyMetrics_annualRent, ihRent, rentAt,
        rentAt, pow_succ]
      ring
    · rw [metricsAfter_succ, calculateYearlyMetrics_remainingBalance,
        calculatePrincipalReduction, hPay, ihBal,
        show balCoef deal (n + 1) = balCoef deal n -
          (12 * paymentSlope deal -
            balCoef deal n * (deal.annualMortgageInterestRate / 100)) from rfl]
      ring
    · rw [metricsAfter_succ, calculateYearlyMetrics_totalPrincipalPaid,
        calculatePrincipalReduction, hPay, ihBal, ihTpp,
        show tppCoef deal (n + 1) = tppCoef deal n + prinCoef deal (n + 1) from rfl,
        show prinCoef deal (n + 1) = 12 * paymentSlope deal -
          balCoef deal n * (deal.annualMortgageInterestRate / 100) from rfl]
      ring
    · rw [metricsAfter_succ, calculateYearlyMetrics_totalAppreciation,
        calculateAppreciation_affine deal hmr, ihTa,
        show taCoef deal (n + 1) = taCoef deal n + apprCoef deal (n + 1) from rfl]
      ring
    · have hCE2 : ({ deal with monthlyRent := rentAt deal n / 12 } :
          RealEstateDeal).closingEquity = none := hCE
      rw [metricsAfter_succ, calculateYearlyMetrics_cashFlow, ihRent,
        totalAnnualExpenses_affine _ hCE2,
        show ({ deal with monthlyRent := rentAt deal n / 12 } :
          RealEstateDeal).monthlyRent = rentAt deal n / 12 from rfl,
        expConstR_rent_update, expSlope_rent_update,
        show n + 1 - 1 = n from rfl, cashConst]
      ring
    · rw [metricsAfter_succ, calculateYearlyMetrics_principalPaid,
        calculatePrincipalReduction, hPay, ihBal,
        show prinCoef deal (n + 1) = 12 * paymentSlope deal -
          balCoef deal n * (deal.annualMortgageInterestRate / 100) from rfl]
      ring
    · rw [metricsAfter_succ, calculateYearlyMetrics_appreciation,
        calculateAppreciation_affine deal hmr]

/-! Average return metrics in affine form. -/

/-- The average cash flow as the mean of the five yearly cash flows
(shared shape fact about `getCashflows`). -/
lemma getCashflows_avgCashflow (deal : RealEstateDeal) (p : ℚ) :
    (getCashflows deal p).avgCashflow =
      ((metricsAfter deal p 1).cashFlow + (metricsAfter deal p 2).cashFlow +
        (metricsAfter deal p 3).cashFlow + (metricsAfter deal p 4).cashFlow +
        (metricsAfter deal p 5).cashFlow) / 5 := by
  show getArrAvg [(metricsAfter deal p 1).cashFlow, (metricsAfter deal p 2).cashFlow,
    (metricsAfter deal p 3).cashFlow, (metricsAfter deal p 4).cashFlow,
    (metricsAfter deal p 5).cashFlow] = _
  rw [getArrAvg_five]

/-- The average yield as the summed yearly returns over five times the
initial investment (shared shape fact about `getReturns`). -/
lemma getReturns_avgYield (deal : RealEstateDeal) (p : ℚ) :
    (getReturns deal p).avgYield =
      (((metricsAfter deal p 1).cashFlow + (metricsAfter deal p 1).principalPaid +
          (metricsAfter deal p 1).appreciation) +
        ((metricsAfter deal p 2).cashFlow + (metricsAfter deal p 2).principalPaid +
          (metricsAfter deal p 2).appreciation) +
        ((metricsAfter deal p 3).cashFlow + (metricsAfter deal p 3).principalPaid +
          (metricsAfter deal p 3).appreciation) +
        ((metricsAfter deal p 4).cashFlow + (metricsAfter deal p 4).principalPaid +
          (metricsAfter deal p 4).appreciation) +
        ((metricsAfter deal p 5).cashFlow + (metricsAfter deal p 5).principalPaid +
          (metricsAfter deal p 5).appreciation)) /
      (getInitialInvestment deal p * 5) := by
  show getArrAvg
    [((metricsAfter deal p 1).cashFlow + (metricsAfter deal p 1).principalPaid +
        (metricsAfter deal p 1).appreciation) / getInitialInvestment deal p,
      ((metricsAfter deal p 2).cashFlow + (metricsAfter deal p 2).principalPaid +
        (metricsAfter deal p 2).appreciation) / getInitialInvestment deal p,
      ((metricsAfter deal p 3).cashFlow + (metricsAfter deal p 3).principalPaid +
        (metricsAfter deal p 3).appreciation) / getInitialInvestment deal p,
      ((metricsAfter deal p 4).cashFlow + (metricsAfter deal p 4).principalPaid +
        (metricsAfter deal p 4).appreciation) / getInitialInvestment deal p,
      ((metricsAfter deal p 5).cashFlow + (metricsAfter deal p 5).principalPaid +
        (metricsAfter deal p 5).appreciation) / getInitialInvestment deal p] = _
  rw [getArrAvg_five, div_add_div_same, div_add_div_same, div_add_div_same,
    div_add_div_same, div_div]

/-- `getAvgCOCROI` unfolded. -/
lemma getAvgCOCROI_eq (deal : RealEstateDeal) (p : ℚ) :
    getAvgCOCROI deal p =
      (getCashflows deal p).avgCashflow / getInitialInvestment deal p := rfl

/-- Price-independent part of the summed yearly cash flows. -/
def cashK (deal : RealEstateDeal) : ℚ :=
  cashConst deal 0 + cashConst deal 1 + cashConst deal 2 + cashConst deal 3 +
    cashConst deal 4

/-- Slope of the summed yearly returns in the purchase price. -/
def retS (deal : RealEstateDeal) : ℚ :=
  prinCoef deal 1 + apprCoef deal 1 + prinCoef deal 2 + apprCoef deal 2 +
    prinCoef deal 3 + apprCoef deal 3 + prinCoef deal 4 + apprCoef deal 4 +
    prinCoef deal 5 + apprCoef deal 5 - 5 * expSlope deal

/-- Slope of the initial investment in the purchase price. -/
def iiF (deal : RealEstateDeal) : ℚ :=
  CLOSING_COST_RATE + deal.downpaymentPercentage / 100

lemma getInitialInvestment_eq (deal : RealEstateDeal) (p : ℚ) :
    getInitialInvestment deal p = iiF deal * p := by
  unfold getInitialInvestment getClosingCosts getDownPayment iiF
  ring

lemma avgCashflow_affine (deal : RealEstateDeal)
    (hCE : deal.closingEquity = none) (hmr : deal.monthlyRent ≠ 0) (p : ℚ) :
    (getCashflows deal p).avgCashflow = cashK deal / 5 - expSlope deal * p := by
  rw [getCashflows_avgCashflow,
    (metricsAfter_affine deal hCE hmr p 1).2.2.2.2.1 (by omega),
    (metricsAfter_affine deal hCE hmr p 2).2.2.2.2.1 (by omega),
    (metricsAfter_affine deal hCE hmr p 3).2.2.2.2.1 (by omega),
    (metricsAfter_affine deal hCE hmr p 4).2.2.2.2.1 (by omega),
    (metricsAfter_affine deal hCE hmr p 5).2.2.2.2.1 (by omega),
    show (1 : ℕ) - 1 = 0 from rfl, show (2 : ℕ) - 1 = 1 from rfl,
    show (3 : ℕ) - 1 = 2 from rfl, show (4 : ℕ) - 1 = 3 from rfl,
    show (5 : ℕ) - 1 = 4 from rfl, cashK]
  ring

lemma avgYield_affine (deal : RealEstateDeal)
    (hCE : deal.closingEquity = none) (hmr : deal.monthlyRent ≠ 0) (p : ℚ) :
    (getReturns deal p).avgYield =
      (cashK deal + retS deal * p) / (getInitialInvestment deal p * 5) := by
  rw [getReturns_avgYield]
  congr 1
  rw [(metricsAfter_affine deal hCE hmr p 1).2.2.2.2.1 (by omega),
    (metricsAfter_affine deal hCE hmr p 2).2.2.2.2.1 (by omega),
    (metricsAfter_affine deal hCE hmr p 3).2.2.2.2.1 (by omega),
    (metricsAfter_affine deal hCE hmr p 4).2.2.2.2.1 (by omega),
    (metricsAfter_affine deal hCE hmr p 5).2.2.2.2.1 (by omega),
    (metricsAfter_affine deal hCE hmr p 1).2.2.2.2.2.1,
    (metricsAfter_affine deal hCE hmr p 2).2.2.2.2.2.1,
    (metricsAfter_affine deal hCE hmr p 3).2.2.2.2.2.1,
    (metricsAfter_affine deal hCE hmr p 4).2.2.2.2.2.1,
    (metricsAfter_affine deal hCE hmr p 5).2.2.2.2.2.1,
    (metricsAfter_affine deal hCE hmr p 1).2.2.2.2.2.2,
    (metricsAfter_affine deal hCE hmr p 2).2.2.2.2.2.2,
    (metricsAfter_affine deal hCE hmr p 3).2.2.2.2.2.2,
    (metricsAfter_affine deal hCE hmr p 4).2.2.2.2.2.2,
    (metricsAfter_affine deal hCE hmr p 5).2.2.2.2.2.2,
    show (1 : ℕ) - 1 = 0 from rfl, show (2 : ℕ) - 1 = 1 from rfl,
    show (3 : ℕ) - 1 = 2 from rfl, show (4 : ℕ) - 1 = 3 from rfl,
    show (5 : ℕ) - 1 = 4 from rfl, cashK, retS]
  ring

/-! Sign facts about the slopes, under the documented input invariants. -/

lemma mortgageFactor_nonneg (deal : RealEstateDeal)
    (hr : 0 ≤ deal.annualMortgageInterestRate) : 0 ≤ mortgageFactor deal := by
  unfold mortgageFactor
  have hr2 : (0 : ℚ) ≤ deal.annualMortgageInterestRate / 100 / 12 :=
    div_nonneg (div_nonneg hr (by norm_num)) (by norm_num)
  apply div_nonneg hr2
  have h1 : (1 : ℚ) ≤ 1 + deal.annualMortgageInterestRate / 100 / 12 := by linarith
  have h2 : ((1 + deal.annualMortgageInterestRate / 100 / 12 : ℚ)) ^
      (-(deal.mortgageAmortization * 12 : ℕ) : ℤ) ≤ 1 := by
    rw [zpow_neg, zpow_natCast]
    have hp : (1 : ℚ) ≤
        (1 + deal.annualMortgageInterestRate / 100 / 12) ^
          (deal.mortgageAmortization * 12) :=
      one_le_pow₀ h1
    exact inv_le_one_of_one_le₀ hp
  linarith

lemma paymentSlope_nonneg (deal : RealEstateDeal)
    (hr : 0 ≤ deal.annualMortgageInterestRate)
    (hdp1 : deal.downpaymentPercentage ≤ 100) : 0 ≤ paymentSlope deal := by
  unfold paymentSlope
  have h1 := mortgageFactor_nonneg deal hr
  have h2 : (0 : ℚ) ≤ 1 - deal.downpaymentPercentage / 100 := by linarith
  have h3 : (0 : ℚ) ≤
      (if deal.downpaymentPercentage ≥ 20 then (0 : ℚ) else PMI_RATE / 12) := by
    split_ifs <;> norm_num [PMI_RATE]
  exact add_nonneg h3 (mul_nonneg h2 h1)

lemma expSlope_pos (deal : RealEstateDeal)
    (hr : 0 ≤ deal.annualMortgageInterestRate)
    (hdp1 : deal.downpaymentPercentage ≤ 100)
    (htax : 0 ≤ deal.propertyTaxRate) : 0 < expSlope deal := by
  unfold expSlope
  have h1 := paymentSlope_nonneg deal hr hdp1
  have hcapex : (0 : ℚ) ≤ (if deal.monthlyHoaDues > 0 then (0 : ℚ) else CAPEX_RATE) := by
    split_ifs <;> norm_num [CAPEX_RATE]
  have hmaint : (0 : ℚ) <
      (if deal.newConstruction then MAINTENANCE_RATE_NEW_CONSTRUCTION
       else MAINTENANCE_RATE_EXISTING_CONSTRUCTION) := by
    split_ifs <;> norm_num [MAINTENANCE_RATE_NEW_CONSTRUCTION,
      MAINTENANCE_RATE_EXISTING_CONSTRUCTION]
  have hins : (0 : ℚ) ≤ (if deal.monthlyHoaDues ≠ 0 then (0 : ℚ) else BASE_INSURANCE_RATE) := by
    split_ifs <;> norm_num [BASE_INSURANCE_RATE]
  have htax2 : (0 : ℚ) ≤ deal.propertyTaxRate / 100 := div_nonneg htax (by norm_num)
  linarith

lemma iiF_pos (deal : RealEstateDeal)
    (hdp0 : 0 ≤ deal.downpaymentPercentage) : 0 < iiF deal := by
  unfold iiF CLOSING_COST_RATE
  have h : (0 : ℚ) ≤ deal.downpaymentPercentage / 100 :=
    div_nonneg hdp0 (by norm_num)
  linarith

lemma minimumCashflow_pos (deal : RealEstateDeal) (hu : 1 ≤ deal.unitCount) :
    0 < minimumCashflow deal := by
  unfold minimumCashflow MINIMUM_MONTHLY_CASHFLOW_PER_DOOR
  have h : (1 : ℚ) ≤ (deal.unitCount : ℚ) := by exact_mod_cast hu
  nlinarith

/-- Claim C7 (amended): for a deal with nonnegative interest and tax
rates, a down payment between 0 and 100 percent, at least one unit,
positive rent, and no closing equity, the passing region of the
classification is downward closed over positive prices — no price above a
TooLow price classifies as Acceptable — and every sufficiently large
price classifies as TooLow.  Both restrictions relative to the original
claim are forced by the counterexample: `starvedDeal` (positive rent, no
equity) is TooLow at every positive price, refuting the asserted
acceptance at all sufficiently small positive prices, and `equityDeal`
(positive rent, positive closing equity, all rates in the documented
ranges) is TooLow at price 10000 yet Acceptable at the higher price
100000, refuting downward closure itself once closing equity is
present. -/
theorem classification_downward_closed (deal : RealEstateDeal)
    (hdp0 : 0 ≤ deal.downpaymentPercentage)
    (hdp1 : deal.downpaymentPercentage ≤ 100)
    (hr : 0 ≤ deal.annualMortgageInterestRate)
    (htax : 0 ≤ deal.propertyTaxRate)
    (hu : 1 ≤ deal.unitCount)
    (hCE : deal.closingEquity = none)
    (hmr : 0 < deal.monthlyRent) :
    (∀ p₁ p₂ : ℚ, 0 < p₁ → p₁ ≤ p₂ →
      checkDealCriteria deal p₂ ≠ .bad → checkDealCriteria deal p₁ ≠ .bad) ∧
    (∃ P₀ : ℚ, ∀ p : ℚ, P₀ ≤ p → checkDealCriteria deal p = .bad) := by
  have hmr' : deal.monthlyRent ≠ 0 := ne_of_gt hmr
  have hES : 0 < expSlope deal := expSlope_pos deal hr hdp1 htax
  have hF : 0 < iiF deal := iiF_pos deal hdp0
  have hmin : 0 < minimumCashflow deal := minimumCashflow_pos deal hu
  constructor
  · intro p₁ p₂ hp1 h12 h2
    have hp2 : (0 : ℚ) < p₂ := lt_of_lt_of_le hp1 h12
    rw [checkDealCriteria_ne_bad_iff] at h2 ⊢
    obtain ⟨hY, hCF, hR⟩ := h2
    rw [avgCashflow_affine deal hCE hmr'] at hCF
    rw [avgYield_affine deal hCE hmr', getInitialInvestment_eq] at hY
    rw [getAvgCOCROI_eq, avgCashflow_affine deal hCE hmr',
      getInitialInvestment_eq] at hR
    -- the average cash flow is antitone, so it still meets the minimum
    have hCF1 : cashK deal / 5 - expSlope deal * p₁ ≥ minimumCashflow deal := by
      nlinarith [mul_le_mul_of_nonneg_left h12 hES.le]
    -- and is therefore positive at both prices, as is the constant part
    have hCFpos2 : 0 < cashK deal / 5 - expSlope deal * p₂ := lt_of_lt_of_le hmin hCF
    have hK : 0 < cashK deal := by nlinarith [mul_pos hES hp2]
    refine ⟨?_, ?_, ?_⟩
    · -- average yield
      rw [avgYield_affine deal hCE hmr', getInitialInvestment_eq]
      have hd1 : (0 : ℚ) < iiF deal * p₁ * 5 := by positivity
      have hd2 : (0 : ℚ) < iiF deal * p₂ * 5 := by positivity
      rw [ge_iff_le, le_div_iff₀ hd2] at hY
      rw [ge_iff_le, le_div_iff₀ hd1]
      nlinarith [mul_nonneg (sub_nonneg.mpr h12) hK.le,
        mul_le_mul_of_nonneg_left hY hp1.le]
    · rw [avgCashflow_affine deal hCE hmr']
      exact hCF1
    · -- cash-on-cash ROI
      rw [getAvgCOCROI_eq, avgCashflow_affine deal hCE hmr',
        getInitialInvestment_eq]
      have hd1 : (0 : ℚ) < iiF deal * p₁ := by positivity
      have hd2 : (0 : ℚ) < iiF deal * p₂ := by positivity
      rw [ge_iff_le, le_div_iff₀ hd2] at hR
      rw [ge_iff_le, le_div_iff₀ hd1]
      have hmc : (0 : ℚ) ≤ MINIMUM_COC_ROI := by norm_num [MINIMUM_COC_ROI]
      have hstep : MINIMUM_COC_ROI * (iiF deal * p₁) ≤
          MINIMUM_COC_ROI * (iiF deal * p₂) := by
        apply mul_le_mul_of_nonneg_left _ hmc
        exact mul_le_mul_of_nonneg_left h12 hF.le
      nlinarith [mul_le_mul_of_nonneg_left h12 hES.le]
  · refine ⟨(cashK deal / 5 - minimumCashflow deal) / expSlope deal + 1, ?_⟩
    intro p hp
    rw [checkDealCriteria_eq_bad_iff]
    rintro ⟨-, hCF, -⟩
    rw [avgCashflow_affine deal hCE hmr'] at hCF
    have hle := mul_le_mul_of_nonneg_left hp hES.le
    have hexp : expSlope deal *
        ((cashK deal / 5 - minimumCashflow deal) / expSlope deal + 1) =
        cashK deal / 5 - minimumCashflow deal + expSlope deal := by
      field_simp
      ring
    rw [hexp] at hle
    linarith

/-! Concrete deals used as witnesses and counterexamples.  The 1200
percent interest rate with a one-year amortization keeps the mortgage
factor a simple rational (`4096/4095`); the core performs no input
validation, so such terms are admissible inputs. -/

/-- A deal whose rent (one dollar a month) can never cover the fixed
landlord-paid utility expense: every price classifies as TooLow. -/
def starvedDeal : RealEstateDeal where
  salePrice := 0
  downpaymentPercentage := 20
  annualMortgageInterestRate := 1200
  mortgageAmortization := 1
  propertyTaxRate := 1
  monthlyHoaDues := 0
  vacancyRate := 0
  monthlyRent := 1
  landlordPaidUtilities := true
  needsPropertyManagement := false
  unitCount := 1
  newConstruction := false
  closingEquity := none

/-- `starvedDeal` fails the criteria at every price: for nonnegative
prices the average cash flow is far below the minimum, and for negative
prices the initial investment is negative, driving the cash-on-cash ROI
negative whenever the cash flow is large. -/
lemma starvedDeal_bad (p : ℚ) : checkDealCriteria starvedDeal p = .bad := by
  rw [checkDealCriteria_eq_bad_iff]
  rintro ⟨-, hCF, hR⟩
  have hmr' : starvedDeal.monthlyRent ≠ 0 := by norm_num [starvedDeal]
  have hCE : starvedDeal.closingEquity = none := rfl
  rw [avgCashflow_affine starvedDeal hCE hmr'] at hCF
  rw [getAvgCOCROI_eq, avgCashflow_affine starvedDeal hCE hmr',
    getInitialInvestment_eq] at hR
  have hES : 0 < expSlope starvedDeal :=
    expSlope_pos starvedDeal (by norm_num [starvedDeal])
      (by norm_num [starvedDeal]) (by norm_num [starvedDeal])
  have hmin : minimumCashflow starvedDeal = 1200 := by
    norm_num [minimumCashflow, starvedDeal, MINIMUM_MONTHLY_CASHFLOW_PER_DOOR]
  have hK : cashK starvedDeal < 6000 := by
    norm_num [cashK, cashConst, rentAt, expConstR, getAnnualUtilities,
      starvedDeal, APPRECIATION_RATE_RENT, UNIT_UTILITY_COST,
      CONDO_INSURANCE_RATE, MANAGEMENT_RATE_MULTI_FAMILY,
      MANAGEMENT_RATE_SINGLE_FAMILY]
  rw [hmin] at hCF
  have hp : p < 0 := by
    by_contra h
    push_neg at h
    nlinarith [mul_nonneg hES.le h]
  have hFpos : (0 : ℚ) < iiF starvedDeal :=
    iiF_pos starvedDeal (by norm_num [starvedDeal])
  have hiip : iiF starvedDeal * p < 0 := mul_neg_of_pos_of_neg hFpos hp
  have hnum : 0 < cashK starvedDeal / 5 - expSlope starvedDeal * p := by linarith
  have hq : (cashK starvedDeal / 5 - expSlope starvedDeal * p) /
      (iiF starvedDeal * p) < 0 := div_neg_of_pos_of_neg hnum hiip
  have hcoc : (0 : ℚ) < MINIMUM_COC_ROI := by norm_num [MINIMUM_COC_ROI]
  linarith

/-! Single steps of the two price-search loops. -/

/-- The bracket-expansion loop stops as soon as the criteria fail. -/
lemma expandPrice_stop {deal : RealEstateDeal} {price : ℤ} (fuel : ℕ)
    (h : checkDealCriteria deal (price : ℚ) = .bad) :
    expandPrice deal (fuel + 1) price = some price := by
  simp only [expandPrice, if_pos h]

/-- The binary search exits with `right` once `left > right`. -/
lemma binarySearchPrice_exit {deal : RealEstateDeal} {left right : ℤ} (fuel : ℕ)
    (h : ¬ left ≤ right) :
    binarySearchPrice deal (fuel + 1) left right = some right := by
  simp only [binarySearchPrice, if_neg h]

/-- A binary-search step whose midpoint fails moves the right bound down. -/
lemma binarySearchPrice_bad {deal : RealEstateDeal} {left right mid : ℤ} (fuel : ℕ)
    (hlr : left ≤ right) (hmid : (⌊((left : ℚ) + (right : ℚ)) / 2⌋ : ℤ) = mid)
    (h : checkDealCriteria deal (mid : ℚ) = .bad) :
    binarySearchPrice deal (fuel + 1) left right =
      binarySearchPrice deal fuel left (mid - 1) := by
  simp only [binarySearchPrice, if_pos hlr, hmid, h]

/-- When the criteria already fail at prices 1 and 0, the optimizer run
is fully determined: the expansion stops at 1, the binary search tests 0,
fails, and exits with `right = -1`. -/
lemma adjustToMaxPurchasePrice_of_bad (deal : RealEstateDeal) (fuel : ℕ)
    (h1 : checkDealCriteria deal 1 = .bad)
    (h0 : checkDealCriteria deal 0 = .bad) :
    adjustToMaxPurchasePrice deal (fuel + 2) = some (-1) := by
  have h1' : checkDealCriteria deal ((1 : ℤ) : ℚ) = .bad := by
    rw [Int.cast_one]; exact h1
  have h0' : checkDealCriteria deal ((0 : ℤ) : ℚ) = .bad := by
    rw [Int.cast_zero]; exact h0
  unfold adjustToMaxPurchasePrice
  rw [show fuel + 2 = (fuel + 1) + 1 from rfl, expandPrice_stop (fuel + 1) h1']
  show binarySearchPrice deal (fuel + 1 + 1) 0 1 = some (-1)
  rw [binarySearchPrice_bad (fuel + 1) (by norm_num)
      (show (⌊(((0 : ℤ) : ℚ) + ((1 : ℤ) : ℚ)) / 2⌋ : ℤ) = 0 by push_cast; norm_num)
      h0',
    show (0 : ℤ) - 1 = -1 from rfl,
    binarySearchPrice_exit fuel (by norm_num)]

/-- Claim C5 (amended): for a deal for which no tested purchase price
satisfies the criteria — in particular prices 1 and 0 fail — the
optimizer does not throw and terminates, but the sentinel final purchase
price is `-1` (the binary search exits with `right = -1`), not the `0`
the claim asserts, and the deal still classifies as TooLow there. -/
theorem unsolvable_deal_sentinel (deal : RealEstateDeal) (fuel : ℕ)
    (h1 : checkDealCriteria deal 1 = .bad)
    (h0 : checkDealCriteria deal 0 = .bad)
    (hneg : checkDealCriteria deal (-1) = .bad) :
    adjustToMaxPurchasePrice deal (fuel + 2) = some (-1) ∧
    checkDealCriteria deal (-1) = .bad :=
  ⟨adjustToMaxPurchasePrice_of_bad deal fuel h1 h0, hneg⟩

/-- Witness for the amended claim C5 at the concrete `starvedDeal`. -/
theorem unsolvable_deal_sentinel_witness :
    adjustToMaxPurchasePrice starvedDeal 2 = some (-1) ∧
    checkDealCriteria starvedDeal (-1) = .bad :=
  unsolvable_deal_sentinel starvedDeal 0 (starvedDeal_bad 1) (starvedDeal_bad 0)
    (starvedDeal_bad (-1))

/-- Claim C5 counterexample: `starvedDeal` satisfies the claim premise —
no nonnegative price meets the criteria — yet the final purchase price is
`-1`, not the sentinel `0` asserted by the claim. -/
theorem unsolvable_deal_claim_counterexample :
    (∀ p : ℚ, 0 ≤ p → checkDealCriteria starvedDeal p = .bad) ∧
    adjustToMaxPurchasePrice starvedDeal 2 = some (-1) ∧ (-1 : ℤ) ≠ 0 :=
  ⟨fun p _ => starvedDeal_bad p,
    adjustToMaxPurchasePrice_of_bad starvedDeal 0 (starvedDeal_bad 1)
      (starvedDeal_bad 0),
    by norm_num⟩

/-! Affine decomposition without the no-equity restriction: with closing
equity present every figure is still affine in the price, but the
constant parts pick up equity contributions.  The slope coefficients are
the ones defined above; the definitions below add the constants. -/

/-- Constant part of the monthly mortgage payment (zero without closing
equity). -/
def paymentConst (deal : RealEstateDeal) : ℚ :=
  -(deal.closingEquity.getD 0) * mortgageFactor deal

lemma getMonthlyMortgagePayment_affine2 (deal : RealEstateDeal) (p : ℚ) :
    getMonthlyMortgagePayment deal p =
      paymentConst deal + paymentSlope deal * p := by
  unfold getMonthlyMortgagePayment monthlyPMI paymentSlope paymentConst
    mortgageFactor getLoanAmount getDownPayment
  rw [mul_div_assoc]
  split_ifs <;> ring

lemma totalAnnualExpenses_affine2 (deal : RealEstateDeal) (p : ℚ) :
    totalAnnualExpenses deal p =
      (12 * paymentConst deal + expConstR deal deal.monthlyRent) +
        expSlope deal * p := by
  unfold totalAnnualExpenses expConstR expSlope getAnnualManagement
    getAnnualCapEx getAnnualMaintenance getAnnualInsurance
  rw [getMonthlyMortgagePayment_affine2 deal]
  split_ifs <;> ring

lemma paymentConst_rent_update (deal : RealEstateDeal) (v : ℚ) :
    paymentConst { deal with monthlyRent := v } = paymentConst deal := rfl

/-- Constant part of the remaining balance after `k` years. -/
def balConstF (deal : RealEstateDeal) : ℕ → ℚ
  | 0 => -(deal.closingEquity.getD 0)
  | k + 1 =>
    balConstF deal k -
      (12 * paymentConst deal -
        balConstF deal k * (deal.annualMortgageInterestRate / 100))

/-- Constant part of the principal paid in year `k`. -/
def prinConstF (deal : RealEstateDeal) : ℕ → ℚ
  | 0 => 0
  | k + 1 =>
    12 * paymentConst deal -
      balConstF deal k * (deal.annualMortgageInterestRate / 100)

/-- Constant part of the cash flow of year `k + 1`. -/
def cashConstF (deal : RealEstateDeal) (k : ℕ) : ℚ :=
  rentAt deal k - expConstR deal (rentAt deal k / 12) - 12 * paymentConst deal

/-- The affine decomposition of the projection chain in the purchase
price, for an arbitrary deal with nonzero rent (closing equity allowed). -/
lemma metricsAfter_affine2 (deal : RealEstateDeal)
    (hmr : deal.monthlyRent ≠ 0) (p : ℚ) :
    ∀ k : ℕ,
      (metricsAfter deal p k).annualRent = rentAt deal k ∧
      (metricsAfter deal p k).remainingBalance =
        balConstF deal k + balCoef deal k * p ∧
      (k ≠ 0 →
        (metricsAfter deal p k).cashFlow =
          cashConstF deal (k - 1) - expSlope deal * p) ∧
      (metricsAfter deal p k).principalPaid =
        prinConstF deal k + prinCoef deal k * p ∧
      (metricsAfter deal p k).appreciation = apprCoef deal k * p := by
  intro k
  induction k with
  | zero =>
    refine ⟨?_, ?_, fun h => absurd rfl h, ?_, ?_⟩
    · rw [metricsAfter_zero, getInitialMetrics_annualRent, rentAt, pow_zero,
        mul_one]
    · rw [metricsAfter_zero, getInitialMetrics_remainingBalance]
      unfold getLoanAmount getDownPayment
      rw [show balConstF deal 0 = -(deal.closingEquity.getD 0) from rfl,
        show balCoef deal 0 = 1 - deal.downpaymentPercentage / 100 from rfl]
      ring
    · rw [metricsAfter_zero,
        show (getInitialMetrics deal p).principalPaid = 0 from rfl,
        show prinConstF deal 0 = 0 from rfl,
        show prinCoef deal 0 = 0 from rfl, zero_mul, add_zero]
    · rw [metricsAfter_zero,
        show (getInitialMetrics deal p).appreciation = 0 from rfl,
        show apprCoef deal 0 = 0 from rfl, zero_mul]
  | succ n ih =>
    obtain ⟨ihRent, ihBal, _, _, _⟩ := ih
    have hPay := getMonthlyMortgagePayment_affine2 deal p
    refine ⟨?_, ?_, fun _ => ?_, ?_, ?_⟩
    · rw [metricsAfter_succ, calculateYearlyMetrics_annualRent, ihRent, rentAt,
        rentAt, pow_succ]
      ring
    · rw [metricsAfter_succ, calculateYearlyMetrics_remainingBalance,
        calculatePrincipalReduction, hPay, ihBal,
        show balConstF deal (n + 1) = balConstF deal n -
          (12 * paymentConst deal -
            balConstF deal n * (deal.annualMortgageInterestRate / 100)) from rfl,
        show balCoef deal (n + 1) = balCoef deal n -
          (12 * paymentSlope deal -
            balCoef deal n * (deal.annualMortgageInterestRate / 100)) from rfl]
      ring
    · rw [metricsAfter_succ, calculateYearlyMetrics_cashFlow, ihRent,
        totalAnnualExpenses_affine2,
        show ({ deal with monthlyRent := rentAt deal n / 12 } :
          RealEstateDeal).monthlyRent = rentAt deal n / 12 from rfl,
        expConstR_rent_update, expSlope_rent_update, paymentConst_rent_update,
        show n + 1 - 1 = n from rfl, cashConstF]
      ring
    · rw [metricsAfter_succ, calculateYearlyMetrics_principalPaid,
        calculatePrincipalReduction, hPay, ihBal,
        show prinConstF deal (n + 1) = 12 * paymentConst deal -
          balConstF deal n * (deal.annualMortgageInterestRate / 100) from rfl,
        show prinCoef deal (n + 1) = 12 * paymentSlope deal -
          balCoef deal n * (deal.annualMortgageInterestRate / 100) from rfl]
      ring
    · rw [metricsAfter_succ, calculateYearlyMetrics_appreciation,
        calculateAppreciation_affine deal hmr]

/-- Constant part of the summed yearly cash flows (closing equity
allowed). -/
def cashKF (deal : RealEstateDeal) : ℚ :=
  cashConstF deal 0 + cashConstF deal 1 + cashConstF deal 2 +
    cashConstF deal 3 + cashConstF deal 4

/-- Constant part of the summed yearly returns (closing equity
allowed). -/
def retKF (deal : RealEstateDeal) : ℚ :=
  cashKF deal + prinConstF deal 1 + prinConstF deal 2 + prinConstF deal 3 +
    prinConstF deal 4 + prinConstF deal 5

lemma avgCashflow_affine2 (deal : RealEstateDeal)
    (hmr : deal.monthlyRent ≠ 0) (p : ℚ) :
    (getCashflows deal p).avgCashflow = cashKF deal / 5 - expSlope deal * p := by
  rw [getCashflows_avgCashflow,
    (metricsAfter_affine2 deal hmr p 1).2.2.1 (by omega),
    (metricsAfter_affine2 deal hmr p 2).2.2.1 (by omega),
    (metricsAfter_affine2 deal hmr p 3).2.2.1 (by omega),
    (metricsAfter_affine2 deal hmr p 4).2.2.1 (by omega),
    (metricsAfter_affine2 deal hmr p 5).2.2.1 (by omega),
    show (1 : ℕ) - 1 = 0 from rfl, show (2 : ℕ) - 1 = 1 from rfl,
    show (3 : ℕ) - 1 = 2 from rfl, show (4 : ℕ) - 1 = 3 from rfl,
    show (5 : ℕ) - 1 = 4 from rfl, cashKF]
  ring

lemma avgYield_affine2 (deal : RealEstateDeal)
    (hmr : deal.monthlyRent ≠ 0) (p : ℚ) :
    (getReturns deal p).avgYield =
      (retKF deal + retS deal * p) / (getInitialInvestment deal p * 5) := by
  rw [getReturns_avgYield]
  congr 1
  rw [(metricsAfter_affine2 deal hmr p 1).2.2.1 (by omega),
    (metricsAfter_affine2 deal hmr p 2).2.2.1 (by omega),
    (metricsAfter_affine2 deal hmr p 3).2.2.1 (by omega),
    (metricsAfter_affine2 deal hmr p 4).2.2.1 (by omega),
    (metricsAfter_affine2 deal hmr p 5).2.2.1 (by omega),
    (metricsAfter_affine2 deal hmr p 1).2.2.2.1,
    (metricsAfter_affine2 deal hmr p 2).2.2.2.1,
    (metricsAfter_affine2 deal hmr p 3).2.2.2.1,
    (metricsAfter_affine2 deal hmr p 4).2.2.2.1,
    (metricsAfter_affine2 deal hmr p 5).2.2.2.1,
    (metricsAfter_affine2 deal hmr p 1).2.2.2.2,
    (metricsAfter_affine2 deal hmr p 2).2.2.2.2,
    (metricsAfter_affine2 deal hmr p 3).2.2.2.2,
    (metricsAfter_affine2 deal hmr p 4).2.2.2.2,
    (metricsAfter_affine2 deal hmr p 5).2.2.2.2,
    show (1 : ℕ) - 1 = 0 from rfl, show (2 : ℕ) - 1 = 1 from rfl,
    show (3 : ℕ) - 1 = 2 from rfl, show (4 : ℕ) - 1 = 3 from rfl,
    show (5 : ℕ) - 1 = 4 from rfl, retKF, cashKF, retS]
  ring

/-- A deal with a large closing-equity contribution: the rates are within
the documented ranges and the rent is positive, yet the classification is
not downward closed in the price. -/
def equityDeal : RealEstateDeal where
  salePrice := 0
  downpaymentPercentage := 0
  annualMortgageInterestRate := 1 / 2
  mortgageAmortization := 10
  propertyTaxRate := 0
  monthlyHoaDues := 1
  vacancyRate := 0
  monthlyRent := 1
  landlordPaidUtilities := true
  needsPropertyManagement := false
  unitCount := 1
  newConstruction := true
  closingEquity := some 1000000

lemma equityDeal_bad_at_low : checkDealCriteria equityDeal 10000 = .bad := by
  rw [checkDealCriteria_eq_bad_iff]
  unfold meetsCriteria
  rintro ⟨hY, -, -⟩
  rw [avgYield_affine2 equityDeal (by norm_num [equityDeal]),
    getInitialInvestment_eq] at hY
  norm_num [retKF, cashKF, cashConstF, prinConstF, balConstF, paymentConst,
    mortgageFactor, rentAt, expConstR, getAnnualUtilities, retS, prinCoef,
    balCoef, apprCoef, expSlope, paymentSlope, iiF, equityDeal, Option.getD,
    MINIMUM_ROI, APPRECIATION_RATE_RENT, APPRECIATION_RATE_SFH, PMI_RATE,
    CLOSING_COST_RATE, CAPEX_RATE, BASE_INSURANCE_RATE, CONDO_INSURANCE_RATE,
    MAINTENANCE_RATE_NEW_CONSTRUCTION, MAINTENANCE_RATE_EXISTING_CONSTRUCTION,
    UNIT_UTILITY_COST, MANAGEMENT_RATE_SINGLE_FAMILY,
    MANAGEMENT_RATE_MULTI_FAMILY] at hY

lemma equityDeal_good_at_high : checkDealCriteria equityDeal 100000 ≠ .bad := by
  rw [checkDealCriteria_ne_bad_iff]
  unfold meetsCriteria
  refine ⟨?_, ?_, ?_⟩
  · rw [avgYield_affine2 equityDeal (by norm_num [equityDeal]),
      getInitialInvestment_eq]
    norm_num [retKF, cashKF, cashConstF, prinConstF, balConstF, paymentConst,
      mortgageFactor, rentAt, expConstR, getAnnualUtilities, retS, prinCoef,
      balCoef, apprCoef, expSlope, paymentSlope, iiF, equityDeal, Option.getD,
      MINIMUM_ROI, APPRECIATION_RATE_RENT, APPRECIATION_RATE_SFH, PMI_RATE,
      CLOSING_COST_RATE, CAPEX_RATE, BASE_INSURANCE_RATE, CONDO_INSURANCE_RATE,
      MAINTENANCE_RATE_NEW_CONSTRUCTION,
      MAINTENANCE_RATE_EXISTING_CONSTRUCTION, UNIT_UTILITY_COST,
      MANAGEMENT_RATE_SINGLE_FAMILY, MANAGEMENT_RATE_MULTI_FAMILY]
  · rw [avgCashflow_affine2 equityDeal (by norm_num [equityDeal])]
    norm_num [minimumCashflow, MINIMUM_MONTHLY_CASHFLOW_PER_DOOR, cashKF,
      cashConstF, paymentConst, mortgageFactor, rentAt, expConstR,
      getAnnualUtilities, expSlope, paymentSlope, equityDeal, Option.getD,
      APPRECIATION_RATE_RENT, PMI_RATE, CAPEX_RATE, BASE_INSURANCE_RATE,
      CONDO_INSURANCE_RATE, MAINTENANCE_RATE_NEW_CONSTRUCTION,
      MAINTENANCE_RATE_EXISTING_CONSTRUCTION, UNIT_UTILITY_COST,
      MANAGEMENT_RATE_SINGLE_FAMILY, MANAGEMENT_RATE_MULTI_FAMILY]
  · rw [getAvgCOCROI_eq, avgCashflow_affine2 equityDeal (by norm_num [equityDeal]),
      getInitialInvestment_eq]
    norm_num [MINIMUM_COC_ROI, cashKF, cashConstF, paymentConst, mortgageFactor,
      rentAt, expConstR, getAnnualUtilities, expSlope, paymentSlope, iiF,
      equityDeal, Option.getD, APPRECIATION_RATE_RENT, PMI_RATE,
      CLOSING_COST_RATE, CAPEX_RATE, BASE_INSURANCE_RATE, CONDO_INSURANCE_RATE,
      MAINTENANCE_RATE_NEW_CONSTRUCTION,
      MAINTENANCE_RATE_EXISTING_CONSTRUCTION, UNIT_UTILITY_COST,
      MANAGEMENT_RATE_SINGLE_FAMILY, MANAGEMENT_RATE_MULTI_FAMILY]

/-- Claim C7 counterexample, in two parts.  First, `starvedDeal` has
positive monthly rent but classifies TooLow at every positive price, so
there is no threshold below which prices are Acceptable.  Second,
`equityDeal` — positive rent, rates within the documented ranges, and an
optional closing-equity contribution — classifies TooLow at price 10000
but Acceptable at the higher price 100000, so a price above a TooLow
price can classify as Acceptable and the classification is not
monotonically non-increasing in desirability. -/
theorem monotonicity_claim_counterexample :
    (0 < starvedDeal.monthlyRent ∧
      ∀ p : ℚ, 0 < p → checkDealCriteria starvedDeal p = .bad) ∧
    (0 < equityDeal.monthlyRent ∧
      0 ≤ equityDeal.downpaymentPercentage ∧
      equityDeal.downpaymentPercentage ≤ 100 ∧
      0 ≤ equityDeal.annualMortgageInterestRate ∧
      0 ≤ equityDeal.propertyTaxRate ∧
      1 ≤ equityDeal.unitCount ∧
      (0 : ℚ) < 10000 ∧ (10000 : ℚ) ≤ 100000 ∧
      checkDealCriteria equityDeal 10000 = .bad ∧
      checkDealCriteria equityDeal 100000 ≠ .bad) :=
  ⟨⟨by norm_num [starvedDeal], fun p _ => starvedDeal_bad p⟩,
    by norm_num [equityDeal], by norm_num [equityDeal],
    by norm_num [equityDeal], by norm_num [equityDeal],
    by norm_num [equityDeal], by norm_num [equityDeal],
    by norm_num, by norm_num, equityDeal_bad_at_low, equityDeal_good_at_high⟩

/-- A deal with ample rent, used to witness the downward-closure theorem
at a price that demonstrably passes. -/
def sampleGoodDeal : RealEstateDeal where
  salePrice := 0
  downpaymentPercentage := 20
  annualMortgageInterestRate := 1200
  mortgageAmortization := 1
  propertyTaxRate := 1
  monthlyHoaDues := 0
  vacancyRate := 0
  monthlyRent := 10000
  landlordPaidUtilities := false
  needsPropertyManagement := false
  unitCount := 1
  newConstruction := false
  closingEquity := none

/-- Witness for the amended claim C7: `sampleGoodDeal` passes at price
10000, so by downward closure it also passes at the smaller price 1000. -/
theorem monotonicity_witness :
    (0 : ℚ) < 1000 ∧ (1000 : ℚ) ≤ 10000 ∧
    checkDealCriteria sampleGoodDeal 10000 ≠ .bad ∧
    checkDealCriteria sampleGoodDeal 1000 ≠ .bad := by
  have hCE : sampleGoodDeal.closingEquity = none := rfl
  have hmr' : sampleGoodDeal.monthlyRent ≠ 0 := by norm_num [sampleGoodDeal]
  have hne : checkDealCriteria sampleGoodDeal 10000 ≠ .bad := by
    rw [checkDealCriteria_ne_bad_iff]
    refine ⟨?_, ?_, ?_⟩
    · rw [avgYield_affine sampleGoodDeal hCE hmr', getInitialInvestment_eq]
      norm_num [cashK, cashConst, rentAt, expConstR, retS, prinCoef, balCoef,
        apprCoef, expSlope, paymentSlope, mortgageFactor, iiF, sampleGoodDeal,
        getAnnualUtilities, APPRECIATION_RATE_RENT, APPRECIATION_RATE_SFH,
        CAPEX_RATE, BASE_INSURANCE_RATE, CONDO_INSURANCE_RATE,
        MAINTENANCE_RATE_NEW_CONSTRUCTION,
        MAINTENANCE_RATE_EXISTING_CONSTRUCTION, PMI_RATE, CLOSING_COST_RATE,
        UNIT_UTILITY_COST, MINIMUM_ROI, MANAGEMENT_RATE_SINGLE_FAMILY,
        MANAGEMENT_RATE_MULTI_FAMILY]
    · rw [avgCashflow_affine sampleGoodDeal hCE hmr']
      norm_num [minimumCashflow, MINIMUM_MONTHLY_CASHFLOW_PER_DOOR, cashK,
        cashConst, rentAt, expConstR, expSlope, paymentSlope, mortgageFactor,
        sampleGoodDeal, getAnnualUtilities, APPRECIATION_RATE_RENT, CAPEX_RATE,
        BASE_INSURANCE_RATE, CONDO_INSURANCE_RATE,
        MAINTENANCE_RATE_NEW_CONSTRUCTION,
        MAINTENANCE_RATE_EXISTING_CONSTRUCTION, PMI_RATE, UNIT_UTILITY_COST,
        MANAGEMENT_RATE_SINGLE_FAMILY, MANAGEMENT_RATE_MULTI_FAMILY]
    · rw [getAvgCOCROI_eq, avgCashflow_affine sampleGoodDeal hCE hmr',
        getInitialInvestment_eq]
      norm_num [MINIMUM_COC_ROI, cashK, cashConst, rentAt, expConstR, expSlope,
        paymentSlope, mortgageFactor, iiF, sampleGoodDeal, getAnnualUtilities,
        APPRECIATION_RATE_RENT, CAPEX_RATE, BASE_INSURANCE_RATE,
        CONDO_INSURANCE_RATE, MAINTENANCE_RATE_NEW_CONSTRUCTION,
        MAINTENANCE_RATE_EXISTING_CONSTRUCTION, PMI_RATE, CLOSING_COST_RATE,
        UNIT_UTILITY_COST, MANAGEMENT_RATE_SINGLE_FAMILY,
        MANAGEMENT_RATE_MULTI_FAMILY]
  refine ⟨by norm_num, by norm_num, hne, ?_⟩
  exact (classification_downward_closed sampleGoodDeal
    (by norm_num [sampleGoodDeal]) (by norm_num [sampleGoodDeal])
    (by norm_num [sampleGoodDeal]) (by norm_num [sampleGoodDeal])
    (by norm_num [sampleGoodDeal]) hCE (by norm_num [sampleGoodDeal])).1
    1000 10000 (by norm_num) (by norm_num) hne

/-! Claim C8: the PMI surcharge rule. -/

/-- Claim C8: for every nonnegative purchase price, the monthly PMI
contribution inside `getMonthlyMortgagePayment` is exactly 0 when the
down-payment percentage is at least 20, and exactly
`purchasePrice * PMI_RATE / 12` when it is below 20; the payment is the
PMI plus the level-payment term. -/
theorem pmi_rule (deal : RealEstateDeal) (p : ℚ) (_hp : 0 ≤ p) :
    (deal.downpaymentPercentage ≥ 20 → monthlyPMI deal p = 0) ∧
    (deal.downpaymentPercentage < 20 → monthlyPMI deal p = p * PMI_RATE / 12) ∧
    getMonthlyMortgagePayment deal p =
      monthlyPMI deal p +
        getLoanAmount deal p * (deal.annualMortgageInterestRate / 100 / 12) /
          (1 - (1 + deal.annualMortgageInterestRate / 100 / 12) ^
            (-(deal.mortgageAmortization * 12 : ℕ) : ℤ)) := by
  refine ⟨fun h => ?_, fun h => ?_, rfl⟩
  · unfold monthlyPMI
    rw [if_pos h]
  · unfold monthlyPMI
    rw [if_neg (not_le.mpr h)]

/-- A deal with a 25 percent down payment (no PMI). -/
def pmiDealLarge : RealEstateDeal :=
  { starvedDeal with downpaymentPercentage := 25 }

/-- A deal with a 10 percent down payment (PMI applies). -/
def pmiDealSmall : RealEstateDeal :=
  { starvedDeal with downpaymentPercentage := 10 }

/-- Witness for claim C8 at two concrete deals and price 120000. -/
theorem pmi_rule_witness :
    (0 : ℚ) ≤ 120000 ∧ monthlyPMI pmiDealLarge 120000 = 0 ∧
    monthlyPMI pmiDealSmall 120000 = 120000 * PMI_RATE / 12 := by
  refine ⟨by norm_num, ?_, ?_⟩
  · exact (pmi_rule pmiDealLarge 120000 (by norm_num)).1
      (by norm_num [pmiDealLarge, starvedDeal])
  · exact (pmi_rule pmiDealSmall 120000 (by norm_num)).2.1
      (by norm_num [pmiDealSmall, starvedDeal])

/-! Claim C6: the missing zero-rate guard. -/

/-- A deal with a zero interest rate and a 25-year amortization. -/
def zeroRateDeal : RealEstateDeal where
  salePrice := 100000
  downpaymentPercentage := 20
  annualMortgageInterestRate := 0
  mortgageAmortization := 25
  propertyTaxRate := 1
  monthlyHoaDues := 0
  vacancyRate := 0
  monthlyRent := 1000
  landlordPaidUtilities := false
  needsPropertyManagement := false
  unitCount := 1
  newConstruction := false
  closingEquity := none

/-- Claim C6 (code bug): `getMonthlyMortgagePayment` has no zero-rate
branch.  At rate 0 the level-payment divisor `1 - (1+r)^(-n)` is exactly
0, so JavaScript computes `0/0 = NaN` (0 in this embedding by the
division-by-zero convention of `ℚ`), instead of the guarded value
`loanAmount / n + PMI = 80000 / 300 = 800/3` that the claim and the spec
require. -/
theorem zero_rate_no_guard :
    (1 - (1 + zeroRateDeal.annualMortgageInterestRate / 100 / 12) ^
        (-(zeroRateDeal.mortgageAmortization * 12 : ℕ) : ℤ) : ℚ) = 0 ∧
    getMonthlyMortgagePayment zeroRateDeal 100000 = 0 ∧
    getLoanAmount zeroRateDeal 100000 /
        ((zeroRateDeal.mortgageAmortization * 12 : ℕ) : ℚ) +
      monthlyPMI zeroRateDeal 100000 = 800 / 3 ∧
    (800 : ℚ) / 3 ≠ 0 := by
  refine ⟨?_, ?_, ?_, by norm_num⟩
  · norm_num [zeroRateDeal]
  · norm_num [getMonthlyMortgagePayment, monthlyPMI, getLoanAmount,
      getDownPayment, zeroRateDeal, PMI_RATE]
  · norm_num [getLoanAmount, getDownPayment, monthlyPMI, zeroRateDeal, PMI_RATE]

/-! Claim C4: the IRR solver contract. -/

/-- Any rate returned by the bisection loop lies in the current bracket
and has net present value within tolerance of zero. -/
lemma irrLoop_bounds (cfs : List ℚ) :
    ∀ (fuel : ℕ) (low high r : ℚ), low ≤ high →
      irrLoop cfs fuel low high = some r →
      low ≤ r ∧ r ≤ high ∧ |npv cfs r| < irrTolerance := by
  intro fuel
  induction fuel with
  | zero =>
    intro low high r _ h
    rw [show irrLoop cfs 0 low high = none from rfl] at h
    exact Option.noConfusion h
  | succ n ih =>
    intro low high r hlh h
    have hml : low ≤ (low + high) / 2 := by linarith
    have hmh : (low + high) / 2 ≤ high := by linarith
    by_cases h1 : |npv cfs ((low + high) / 2)| < irrTolerance
    · rw [irrLoop_step_conv n rfl h1] at h
      obtain rfl := Option.some.inj h
      exact ⟨hml, hmh, h1⟩
    · by_cases h2 : npv cfs ((low + high) / 2) < 0
      · rw [irrLoop_step_down n rfl h1 h2] at h
        obtain ⟨ha, hb, hc⟩ := ih low ((low + high) / 2) r hml h
        exact ⟨ha, le_trans hb hmh, hc⟩
      · rw [irrLoop_step_up n rfl h1 h2] at h
        obtain ⟨ha, hb, hc⟩ := ih ((low + high) / 2) high r hmh h
        exact ⟨le_trans hml ha, hb, hc⟩

/-- The net present value of a six-entry series, unfolded. -/
lemma npv_six (a0 a1 a2 a3 a4 a5 r : ℚ) :
    npv [a0, a1, a2, a3, a4, a5] r =
      a0 + a1 / (1 + r) + a2 / (1 + r) ^ 2 + a3 / (1 + r) ^ 3 +
        a4 / (1 + r) ^ 4 + a5 / (1 + r) ^ 5 := by
  unfold npv
  rw [show List.enum [a0, a1, a2, a3, a4, a5] =
      [(0, a0), (1, a1), (2, a2), (3, a3), (4, a4), (5, a5)] from rfl,
    List.foldl_cons, List.foldl_cons, List.foldl_cons, List.foldl_cons,
    List.foldl_cons, List.foldl_cons, List.foldl_nil]
  show (0 : ℚ) + a0 / (1 + r) ^ (0 : ℕ) + a1 / (1 + r) ^ (1 : ℕ) +
      a2 / (1 + r) ^ (2 : ℕ) + a3 / (1 + r) ^ (3 : ℕ) +
      a4 / (1 + r) ^ (4 : ℕ) + a5 / (1 + r) ^ (5 : ℕ) = _
  rw [pow_zero, pow_one, div_one]
  ring

/-- With nonnegative entries and a rate in `[0, 1]`, the net present
value of a six-entry series is at least half the year-1 entry. -/
lemma npv_six_lb (a0 a1 a2 a3 a4 a5 r : ℚ) (h0 : 0 ≤ a0) (h1 : 0 ≤ a1)
    (h2 : 0 ≤ a2) (h3 : 0 ≤ a3) (h4 : 0 ≤ a4) (h5 : 0 ≤ a5)
    (hr0 : 0 ≤ r) (hr1 : r ≤ 1) :
    a1 / 2 ≤ npv [a0, a1, a2, a3, a4, a5] r := by
  rw [npv_six]
  have hpos : (0 : ℚ) < 1 + r := by linarith
  have e1 : a1 / 2 ≤ a1 / (1 + r) := by
    rw [div_le_div_iff₀ (by norm_num) hpos]
    nlinarith
  have t2 : (0 : ℚ) ≤ a2 / (1 + r) ^ 2 := div_nonneg h2 (by positivity)
  have t3 : (0 : ℚ) ≤ a3 / (1 + r) ^ 3 := div_nonneg h3 (by positivity)
  have t4 : (0 : ℚ) ≤ a4 / (1 + r) ^ 4 := div_nonneg h4 (by positivity)
  have t5 : (0 : ℚ) ≤ a5 / (1 + r) ^ 5 := div_nonneg h5 (by positivity)
  linarith

/-- If the entries are nonnegative and the year-1 entry clears twice the
tolerance, the bisection loop exhausts its fuel and throws: the net
present value stays positive on the whole bracket. -/
lemma irrLoop_none_six (a0 a1 a2 a3 a4 a5 : ℚ) (h0 : 0 ≤ a0)
    (h1 : 2 * irrTolerance ≤ a1) (h2 : 0 ≤ a2) (h3 : 0 ≤ a3) (h4 : 0 ≤ a4)
    (h5 : 0 ≤ a5) :
    ∀ (fuel : ℕ) (low high : ℚ), 0 ≤ low → low ≤ high → high ≤ 1 →
      irrLoop [a0, a1, a2, a3, a4, a5] fuel low high = none := by
  have htol : (0 : ℚ) < irrTolerance := by norm_num [irrTolerance]
  have h1' : (0 : ℚ) ≤ a1 := by linarith
  intro fuel
  induction fuel with
  | zero => intro low high _ _ _; rfl
  | succ n ih =>
    intro low high hl hlh hh
    have hm0 : 0 ≤ (low + high) / 2 := by linarith
    have hm1 : (low + high) / 2 ≤ 1 := by linarith
    have hmh : (low + high) / 2 ≤ high := by linarith
    have hlb := npv_six_lb a0 a1 a2 a3 a4 a5 ((low + high) / 2) h0 h1' h2 h3 h4
      h5 hm0 hm1
    have hv : irrTolerance ≤ npv [a0, a1, a2, a3, a4, a5] ((low + high) / 2) := by
      linarith
    have hnabs : ¬ |npv [a0, a1, a2, a3, a4, a5] ((low + high) / 2)| <
        irrTolerance := by
      rw [abs_of_nonneg (by linarith)]
      linarith
    have hnneg : ¬ npv [a0, a1, a2, a3, a4, a5] ((low + high) / 2) < 0 := by
      linarith
    rw [irrLoop_step_up n rfl hnabs hnneg]
    exact ih ((low + high) / 2) high hm0 hmh hh

/-- A deal whose series at price 0 is all inflows: the bisection never
meets the tolerance and `calculateIRR` throws. -/
def nonConvergingDeal : RealEstateDeal where
  salePrice := 0
  downpaymentPercentage := 20
  annualMortgageInterestRate := 1200
  mortgageAmortization := 1
  propertyTaxRate := 1
  monthlyHoaDues := 0
  vacancyRate := 0
  monthlyRent := 100
  landlordPaidUtilities := false
  needsPropertyManagement := false
  unitCount := 1
  newConstruction := false
  closingEquity := none

/-- The cash-flow series of `getCashflows`, in closed form (shared shape
fact, definitional). -/
lemma getCashflows_cashflows (deal : RealEstateDeal) (p : ℚ) :
    (getCashflows deal p).cashflows =
      [-getInitialInvestment deal p,
        (metricsAfter deal p 1).cashFlow, (metricsAfter deal p 2).cashFlow,
        (metricsAfter deal p 3).cashFlow, (metricsAfter deal p 4).cashFlow,
        (metricsAfter deal p 5).cashFlow +
          ((metricsAfter deal p 5).totalPrincipalPaid +
            (metricsAfter deal p 5).totalAppreciation)] := rfl

/-- At price 0 the `nonConvergingDeal` series is `[0, 1200, 1230, …]`,
all nonnegative with a large year-1 entry, so the solver throws. -/
lemma calculateIRR_nonConverging_none :
    calculateIRR (getCashflows nonConvergingDeal 0).cashflows = none := by
  have hmr' : nonConvergingDeal.monthlyRent ≠ 0 := by norm_num [nonConvergingDeal]
  have base := metricsAfter_affine nonConvergingDeal rfl hmr' 0
  have e0 : -getInitialInvestment nonConvergingDeal 0 = 0 := by
    rw [getInitialInvestment_eq]
    ring
  have ecf : ∀ k : ℕ, k ≠ 0 →
      (metricsAfter nonConvergingDeal 0 k).cashFlow =
        cashConst nonConvergingDeal (k - 1) := by
    intro k hk
    rw [(base k).2.2.2.2.1 hk]
    ring
  have egE : (metricsAfter nonConvergingDeal 0 5).totalPrincipalPaid +
      (metricsAfter nonConvergingDeal 0 5).totalAppreciation = 0 := by
    rw [(base 5).2.2.1, (base 5).2.2.2.1]
    ring
  have hcc : ∀ k : ℕ, cashConst nonConvergingDeal k =
      1200 * (41 / 40 : ℚ) ^ k := by
    intro k
    norm_num [cashConst, rentAt, expConstR, nonConvergingDeal,
      getAnnualUtilities, APPRECIATION_RATE_RENT, CONDO_INSURANCE_RATE,
      UNIT_UTILITY_COST, MANAGEMENT_RATE_SINGLE_FAMILY,
      MANAGEMENT_RATE_MULTI_FAMILY]
  rw [getCashflows_cashflows, e0, ecf 1 (by omega), ecf 2 (by omega),
    ecf 3 (by omega), ecf 4 (by omega), ecf 5 (by omega), egE,
    show (1 : ℕ) - 1 = 0 from rfl, show (2 : ℕ) - 1 = 1 from rfl,
    show (3 : ℕ) - 1 = 2 from rfl, show (4 : ℕ) - 1 = 3 from rfl,
    show (5 : ℕ) - 1 = 4 from rfl, hcc 0, hcc 1, hcc 2, hcc 3, hcc 4]
  unfold calculateIRR
  rw [add_zero]
  exact irrLoop_none_six _ _ _ _ _ _ (by norm_num)
    (by norm_num [irrTolerance]) (by norm_num) (by norm_num) (by norm_num)
    (by norm_num) 1000 0 1 (by norm_num) (by norm_num) (by norm_num)

/-- Claim C4: `calculateIRR` is 1000 bisection iterations over `[0, 1]`
with tolerance `1e-6`; a returned rate is a midpoint of the bracket whose
net present value is within tolerance of zero, and on non-convergence the
public `getIRR` call catches the throw and returns 0 instead of
propagating the failure. -/
theorem irr_bisection_contract (cfs : List ℚ) (deal : RealEstateDeal) (p : ℚ) :
    calculateIRR cfs = irrLoop cfs 1000 0 1 ∧
    (∀ r : ℚ, calculateIRR cfs = some r →
      0 ≤ r ∧ r ≤ 1 ∧ |npv cfs r| < irrTolerance) ∧
    getIRR deal p = (calculateIRR (getCashflows deal p).cashflows).getD 0 ∧
    (calculateIRR (getCashflows deal p).cashflows = none → getIRR deal p = 0) := by
  refine ⟨rfl, ?_, rfl, ?_⟩
  · intro r h
    exact irrLoop_bounds cfs 1000 0 1 r (by norm_num) h
  · intro h
    unfold getIRR
    rw [h]
    rfl

/-- Witness for claim C4: the converging series `[-1000, 1100]` returns a
rate in `[0, 1]` within tolerance, and the non-converging
`nonConvergingDeal` at price 0 yields IRR 0 through the catch. -/
theorem irr_bisection_contract_witness :
    ((0 : ℚ) ≤ 53687091 / 536870912 ∧ (53687091 : ℚ) / 536870912 ≤ 1 ∧
      |npv [-1000, 1100] (53687091 / 536870912)| < irrTolerance) ∧
    getIRR nonConvergingDeal 0 = 0 := by
  constructor
  · exact (irr_bisection_contract [-1000, 1100] nonConvergingDeal 0).2.1
      (53687091 / 536870912) calculateIRR_roundtrip_value
  · exact (irr_bisection_contract [-1000, 1100] nonConvergingDeal 0).2.2.2
      calculateIRR_nonConverging_none

end RealEstate
